import Mathlib

/-!
Verification of the survey-to-simulation data reshaping layer of
openfisca-survey-manager, embedded shallowly from
`openfisca_survey_manager/scenarios.py` and `openfisca_survey_manager/surveys.py`.

Conventions of the embedding:
* a pandas cell is an `Option Rat`; `none` stands for a missing value (NaN);
* a pandas `Series` carries a dtype tag and its cells, a `DataFrame` a row count
  and named columns;
* Python exceptions (KeyError, AssertionError, UnboundLocalError, ...) are the
  `Except` error branch, with a dedicated error constructor per raise site;
* fixed module-level dictionaries (`id_variable_by_entity_key`, ...) are embedded
  as pattern-matching functions returning `Option`.
-/

deriving instance DecidableEq for Except

namespace OpenFiscaSM

/-- Python `int()` applied to a rational: truncation toward zero (the numerator and
denominator of a `Rat` are in lowest terms with a positive denominator, so
T-division of the numerator by the denominator is exactly truncation). -/
def ratTrunc (q : Rat) : Int := q.num.tdiv (q.den : Int)

/-- Element dtypes occurring in the stored tables and the variable schema. -/
inductive DType
  | float
  | int
  | bool
deriving DecidableEq

/-- A pandas Series: a dtype tag and the cell values; `none` is a missing value (NaN). -/
structure Series where
  dtype : DType
  values : List (Option Rat)
deriving DecidableEq

/-- A pandas DataFrame: a row count and named columns. -/
structure DataFrame where
  nrows : Nat
  cols : List (String × Series)
deriving DecidableEq

def DataFrame.columnNames (df : DataFrame) : List String := df.cols.map Prod.fst

/-- Association-list lookup, used for every Python dict access in the model. -/
def lookup {α : Type} (l : List (String × α)) (k : String) : Option α :=
  (l.find? (fun p => p.1 == k)).map Prod.snd

def DataFrame.get? (df : DataFrame) (name : String) : Option Series :=
  lookup df.cols name

/-- All columns of the frame have the declared number of rows. -/
def DataFrame.WF (df : DataFrame) : Prop :=
  ∀ p ∈ df.cols, p.2.values.length = df.nrows

/-- `Option.getD`-style unwrapping into `Except`, modelling a raising dict/column access. -/
def getOr {ε α : Type} (o : Option α) (e : ε) : Except ε α :=
  match o with
  | some a => .ok a
  | none => .error e

/-- Schema entry of one variable (an openfisca column): its owning entity key, element
dtype, default value, and whether its formula class is a `SimpleFormula` whose
`function` is not `None` (i.e. the variable is computed rather than pure input;
the two kept cases of `filter_input_variables` — non-SimpleFormula class, or
`function is None` — behave identically and are merged into `false`). -/
structure Column where
  entity : String
  dtype : DType
  default : Rat
  has_formula_function : Bool
deriving DecidableEq

structure TaxBenefitSystem where
  column_by_name : List (String × Column)
deriving DecidableEq

/-- A simulation entity as used by the resolver: its key and `is_person` flag. -/
structure Entity where
  key : String
  is_person : Bool
deriving DecidableEq

structure Simulation where
  entities : List Entity
deriving DecidableEq

/-- scenarios.py lines 20-24. -/
def id_variable_by_entity_key : String → Option String
  | "famille" => some "idfam"
  | "foyer_fiscal" => some "idfoy"
  | "menage" => some "idmen"
  | _ => none

/-- scenarios.py lines 25-29. -/
def role_variable_by_entity_key : String → Option String
  | "famille" => some "quifam"
  | "foyer_fiscal" => some "quifoy"
  | "menage" => some "quimen"
  | _ => none

/-- `id_variable_by_entity_key.values()`. -/
def id_variable_values : List String := ["idfam", "idfoy", "idmen"]

/-- `role_variable_by_entity_key.values()`. -/
def role_variable_values : List String := ["quifam", "quifoy", "quimen"]

/-- The possible failures of `init_simulation_with_data_frame`, one constructor per
raise site. -/
inductive InitError
  | keyError (name : String)
  | missingIdVariable (name : String)
  | rolesCountNotInt (entity : String)
  | idsMismatch (entity : String)
  | astypeNaN (name : String)
  | nanRemaining (name : String)
  | badSize (name : String)
deriving DecidableEq

/-- The per-entity state set by the entity loop; the role fields stay `none` for
person entities, which only get a count. -/
structure EntityState where
  count : Nat
  roles_count : Option Int
  members_entity_id : Option (List Int)
  members_legacy_role : Option (List Int)
deriving DecidableEq

/-- pandas `Series.max()`: maximum over the present values, `none` (NaN) when no
value is present. -/
def maxPresent (vals : List (Option Rat)) : Option Rat :=
  (vals.filterMap id).foldl
    (fun acc v =>
      match acc with
      | none => some v
      | some m => some (max m v))
    none

/-- `(series == 0).sum()`: number of cells equal to 0 (NaN compares unequal). -/
def countRole0 (vals : List (Option Rat)) : Nat :=
  (vals.filter (fun v => v == some 0)).length

/-- `len(series.unique())`: number of distinct cell values (all NaN cells collapse
to a single value, as in pandas). -/
def uniqueCount (vals : List (Option Rat)) : Nat :=
  vals.dedup.length

/-- pandas `Series.astype('int')`: truncates toward zero, raises on a missing value. -/
def seriesToInt (name : String) (vals : List (Option Rat)) : Except InitError (List Int) :=
  vals.mapM (fun v =>
    match v with
    | some q => Except.ok (ratTrunc q)
    | none => Except.error (.astypeNaN name))

/-- One iteration of the entity loop of `init_simulation_with_data_frame`
(scenarios.py lines 540-555): person entities get `count = len(df)`; group
entities get `count` = number of role-0 rows, `roles_count = int(max role + 1)`,
the data-consistency check `count == len(unique ids)`, and the id/role member
arrays cast to int. -/
def processEntity (df : DataFrame) (entity : Entity) : Except InitError (String × EntityState) :=
  if entity.is_person then
    .ok (entity.key, ⟨df.nrows, none, none, none⟩)
  else do
    let roleVar ← getOr (role_variable_by_entity_key entity.key) (.keyError entity.key)
    let roleSerie ← getOr (df.get? roleVar) (.keyError roleVar)
    let cnt := countRole0 roleSerie.values
    let m ← getOr (maxPresent roleSerie.values) (.rolesCountNotInt entity.key)
    let roles_count := ratTrunc (m + 1)
    let idVar ← getOr (id_variable_by_entity_key entity.key) (.keyError entity.key)
    let idSerie ← getOr (df.get? idVar) (.keyError idVar)
    let unique_ids_count := uniqueCount idSerie.values
    if cnt ≠ unique_ids_count then
      .error (.idsMismatch entity.key)
    else do
      let mei ← seriesToInt idVar idSerie.values
      let mlr ← seriesToInt roleVar roleSerie.values
      .ok (entity.key, ⟨cnt, some roles_count, some mei, some mlr⟩)

/-- The entity loop (scenarios.py lines 540-555). -/
def initEntities (sim : Simulation) (df : DataFrame) :
    Except InitError (List (String × EntityState)) :=
  sim.entities.mapM (processEntity df)

/-- First cleaning pass of `filter_input_variables` (scenarios.py lines 473-478):
drop the columns the schema does not know, keeping id and role columns. -/
def filterPass1 (column_by_name : List (String × Column))
    (id_variables role_variables : List String) (df : DataFrame) : DataFrame :=
  ⟨df.nrows, df.cols.filter (fun p =>
    (id_variables ++ role_variables).contains p.1 || (lookup column_by_name p.1).isSome)⟩

/-- Second cleaning pass of `filter_input_variables` (scenarios.py lines 480-499):
drop the columns the schema marks as computed (`SimpleFormula` with a function)
unless they are whitelisted in `used_as_input_variables`; id and role columns are
skipped; the schema lookup `column_by_name[column_name]` raises on an unknown
column (unreachable after the first pass). -/
def filterPass2Cols (column_by_name : List (String × Column))
    (id_variables role_variables used_as_input_variables : List String) :
    List (String × Series) → Except InitError (List (String × Series))
  | [] => .ok []
  | p :: rest => do
    let keep ←
      if (id_variables ++ role_variables).contains p.1 then
        pure true
      else
        match lookup column_by_name p.1 with
        | none => Except.error (.keyError p.1)
        | some col =>
          pure (!col.has_formula_function || used_as_input_variables.contains p.1)
    let rest' ← filterPass2Cols column_by_name id_variables role_variables
      used_as_input_variables rest
    .ok (if keep then p :: rest' else rest')

/-- `filter_input_variables` (scenarios.py lines 455-501). -/
def filter_input_variables (column_by_name : List (String × Column))
    (id_variables role_variables used_as_input_variables : List String) (df : DataFrame) :
    Except InitError DataFrame := do
  let df1 := filterPass1 column_by_name id_variables role_variables df
  let cols ← filterPass2Cols column_by_name id_variables role_variables
    used_as_input_variables df1.cols
  .ok ⟨df1.nrows, cols⟩

/-- `numpy.astype` on one cell. A missing value stays NaN for a float target; the
conversion of a missing value to int or bool is not well defined (pandas raises,
numpy yields an unspecified word) and is modelled as an error — it is unreachable
on well-formed frames, where only float columns can hold missing values. -/
def castCell (dtype : DType) (name : String) (v : Option Rat) : Except InitError (Option Rat) :=
  match dtype with
  | .float => .ok v
  | .int =>
    match v with
    | some q => .ok (some ((ratTrunc q : Int) : Rat))
    | none => .error (.astypeNaN name)
  | .bool =>
    match v with
    | some q => .ok (some (if q == 0 then (0 : Rat) else 1))
    | none => .error (.astypeNaN name)

/-- Replace the missing cells of a column by the schema default of its variable
(scenarios.py line 573). -/
def fillMissing (d : Rat) (vals : List (Option Rat)) : List (Option Rat) :=
  vals.map (fun v => some (v.getD d))

/-- The values a column holds after the missing-value step of the holder loop
(scenarios.py lines 567-573): for a float column with missing cells they are
replaced by the schema default, any other column is left as is. -/
def filledValues (default : Rat) (serie : Series) : List (Option Rat) :=
  if serie.dtype == .float && serie.values.any (fun v => v.isNone) then
    fillMissing default serie.values
  else
    serie.values

/-- Keep the cells of the rows whose role cell equals 0, in row order
(scenarios.py lines 581-583; the NaN role compares unequal to 0). -/
def selectRole0 (roles vals : List (Option Rat)) : List (Option Rat) :=
  ((roles.zip vals).filter (fun p => p.1 == some 0)).map Prod.snd

/-- One iteration of the holder loop of `init_simulation_with_data_frame`
(scenarios.py lines 557-589): skip the six id/role columns; fetch the variable's
schema entry and its entity (a raising access); fill missing float cells with the
default and assert none remain; keep all rows for a person entity and the role-0
rows otherwise; cast to the schema dtype; and check the array size against the
entity count. `.ok none` means the column was skipped. In the source the frame is
mutated in place, but the fill only ever touches the column being processed (id
and role columns are skipped) so each column can be processed independently. -/
def processColumn (column_by_name : List (String × Column)) (entities : List Entity)
    (states : List (String × EntityState)) (df : DataFrame) (name : String) (serie : Series) :
    Except InitError (Option (String × List (Option Rat))) :=
  if (role_variable_values ++ id_variable_values).contains name then
    .ok none
  else do
    let col ← getOr (lookup column_by_name name) (.keyError name)
    let entity ← getOr (entities.find? (fun e => e.key == col.entity)) (.keyError col.entity)
    let st ← getOr (lookup states col.entity) (.keyError col.entity)
    let filled ←
      if serie.dtype == .float then
        let vals := filledValues col.default serie
        if vals.all (fun v => v.isSome) then pure vals else Except.error (.nanRemaining name)
      else
        pure serie.values
    let array ←
      if entity.is_person then
        filled.mapM (castCell col.dtype name)
      else do
        let roleVar ← getOr (role_variable_by_entity_key entity.key) (.keyError entity.key)
        let roleSerie ← getOr (df.get? roleVar) (.keyError roleVar)
        (selectRole0 roleSerie.values filled).mapM (castCell col.dtype name)
    if array.length = st.count then .ok (some (name, array)) else .error (.badSize name)

/-- The holder loop (scenarios.py lines 557-589): one stored array per
non-skipped column. -/
def initColumns (column_by_name : List (String × Column)) (entities : List Entity)
    (states : List (String × EntityState)) (df : DataFrame) :
    Except InitError (List (String × List (Option Rat))) := do
  let arrays ← df.cols.mapM (fun p => processColumn column_by_name entities states df p.1 p.2)
  .ok (arrays.filterMap id)

/-- The id and role column names required by the simulation's group entities
(scenarios.py lines 522-527); the dict accesses raise on an unknown entity key. -/
def idRoleVariables (sim : Simulation) : Except InitError (List String × List String) := do
  let idv ← (sim.entities.filter (fun e => !e.is_person)).mapM
    (fun e => getOr (id_variable_by_entity_key e.key) (.keyError e.key))
  let rolev ← (sim.entities.filter (fun e => !e.is_person)).mapM
    (fun e => getOr (role_variable_by_entity_key e.key) (.keyError e.key))
  .ok (idv, rolev)

/-- scenarios.py lines 529-531: every id and role column must be present. -/
def checkIdRolePresence (df : DataFrame) (idv rolev : List String) : Except InitError Unit := do
  let _ ← (idv ++ rolev).mapM
    (fun v => if df.columnNames.contains v then Except.ok () else Except.error (.missingIdVariable v))
  .ok ()

/-- The frame handed to the entity and holder loops: the input frame after the id/role
presence checks and `filter_input_variables` (scenarios.py lines 522-538). -/
def filteredFrame (tbs : TaxBenefitSystem) (sim : Simulation)
    (used_as_input_variables : List String) (df : DataFrame) : Except InitError DataFrame := do
  let (idv, rolev) ← idRoleVariables sim
  let _ ← checkIdRolePresence df idv rolev
  filter_input_variables tbs.column_by_name idv rolev used_as_input_variables df

/-- `init_simulation_with_data_frame` (scenarios.py lines 504-589). The mismatch
between `used_as_input_variables` and the frame's columns (lines 514-520) is only
logged and has no effect on the result. -/
def init_simulation_with_data_frame (tbs : TaxBenefitSystem) (sim : Simulation)
    (used_as_input_variables : List String) (df : DataFrame) :
    Except InitError (List (String × EntityState) × List (String × List (Option Rat))) := do
  let df' ← filteredFrame tbs sim used_as_input_variables df
  let states ← initEntities sim df'
  let arrays ← initColumns tbs.column_by_name sim.entities states df'
  .ok (states, arrays)

/-! ## Aggregation (`AbstractSurveyScenario.compute_aggregate`, scenarios.py lines 76-118) -/

/-- The part of a simulation the aggregation helpers see: the simulation's own
tax-benefit-system schema and the result of `calculate_add` per variable. -/
structure SimulationData where
  column_by_name : List (String × Column)
  calculate : String → List Rat

/-- The scenario state the aggregation and pivot helpers read. The simulations are
modelled as already built (`self.simulation or self.new_simulation()`). -/
structure Scenario where
  tax_benefit_system : TaxBenefitSystem
  filtering_variable_by_entity : List (String × String)
  weight_column_name_by_entity : List (String × String)
  simulation : SimulationData
  reference_simulation : SimulationData

inductive AggError
  | keyError (name : String)
  | assertionError (msg : String)
deriving DecidableEq

def listSum (l : List Rat) : Rat := l.foldl (fun a b => a + b) 0

def mulPointwise (a b : List Rat) : List Rat := List.zipWith (fun x y => x * y) a b

/-- Python truthiness of an optional string: `None` and the empty string are falsy
(scenarios.py lines 94 and 111 test `if filter_by:`). -/
def truthy (o : Option String) : Option String :=
  match o with
  | some f => if f == "" then none else some f
  | none => none

/-- `(value * weight * filter_dummy).sum()` with `filter_dummy` either the filter
column or the scalar 1.0. -/
def weightedSum (vs weight : List Rat) (fd : Option (List Rat)) : Rat :=
  match fd with
  | none => listSum (mulPointwise vs weight)
  | some f => listSum (mulPointwise (mulPointwise vs weight) f)

/-- `(weight * filter_dummy).sum()`. -/
def weightedMass (weight : List Rat) (fd : Option (List Rat)) : Rat :=
  match fd with
  | none => listSum weight
  | some f => listSum (mulPointwise weight f)

/-- Float division: `none` (NaN or infinity) when the denominator is zero. -/
def ratDiv (a b : Rat) : Option Rat := if b == 0 then none else some (a / b)

/-- The body of `compute_aggregate` once `filter_by` is resolved (scenarios.py
lines 89-118): the filter-membership assertion, the weight lookup, the value
(NaN for a variable unknown to the simulation), and the sum/mean/count
aggregation. The result cell is `none` for a not-a-number outcome. The schema
access of line 101 raises for a variable unknown to the *scenario's* schema,
before the NaN fallback of lines 104-108, which only catches variables missing
from the *simulation's* schema. -/
def compute_aggregate_resolved (sc : Scenario) (varname : String) (aggfunc : String)
    (filter_by : Option String) (reference : Bool) : Except AggError (Option Rat) := do
  let simulation := if reference then sc.reference_simulation else sc.simulation
  let _ ←
    match truthy filter_by with
    | some f =>
      if (lookup sc.tax_benefit_system.column_by_name f).isSome then pure ()
      else Except.error (.assertionError "filter_by")
    | none => pure ()
  if sc.weight_column_name_by_entity.isEmpty then
    Except.error (.assertionError "weight_column_name_by_entity")
  else do
    let col ← getOr (lookup sc.tax_benefit_system.column_by_name varname)
      (.keyError varname)
    let entity_weight ← getOr (lookup sc.weight_column_name_by_entity col.entity)
      (.keyError col.entity)
    let value : Option (List Rat) :=
      if (lookup simulation.column_by_name varname).isSome then
        some (simulation.calculate varname)
      else
        none
    let weight := simulation.calculate entity_weight
    let filter_dummy : Option (List Rat) := (truthy filter_by).map simulation.calculate
    if aggfunc == "sum" then
      .ok (value.map (fun vs => weightedSum vs weight filter_dummy))
    else if aggfunc == "mean" then
      match value with
      | none => .ok none
      | some vs => .ok (ratDiv (weightedSum vs weight filter_dummy)
          (weightedMass weight filter_dummy))
    else
      .ok (some (weightedMass weight filter_dummy))

/-- `compute_aggregate` (scenarios.py lines 76-118). When `filter_by` is `None` it
is derived from `filtering_variable_by_entity` at the variable's entity — a
raising schema access when the variable is unknown (line 84). -/
def compute_aggregate (sc : Scenario) (varname : String) (aggfunc : String)
    (filter_byArg : Option String) (reference : Bool) : Except AggError (Option Rat) := do
  if !(["count", "mean", "sum"].contains aggfunc) then
    Except.error (.assertionError "aggfunc")
  else do
    let filter_by ←
      match filter_byArg with
      | some f => pure (some f)
      | none => do
        let col ← getOr (lookup sc.tax_benefit_system.column_by_name varname)
          (.keyError varname)
        pure (lookup sc.filtering_variable_by_entity col.entity)
    compute_aggregate_resolved sc varname aggfunc filter_by reference

/-! ## Pivot tables (`AbstractSurveyScenario.compute_pivot_table`, scenarios.py
lines 120-196) -/

inductive PivotError
  | unboundLocalTaxBenefitSystem
  | keyError (name : String)
  | indexError
  | assertionError (msg : String)
deriving DecidableEq

/-- A pivot table: cells indexed by the pair (index-variable values,
columns-variable values); `none` cells are NaN. The entry order abstracts the
label ordering of pandas. -/
structure Pivot where
  entries : List ((List (Option Rat) × List (Option Rat)) × Option Rat)
deriving DecidableEq

def Pivot.keys (p : Pivot) : List (List (Option Rat) × List (Option Rat)) :=
  p.entries.map Prod.fst

def pivotLookup (p : Pivot) (k : List (Option Rat) × List (Option Rat)) : Option (Option Rat) :=
  (p.entries.find? (fun e => e.1 == k)).map Prod.snd

/-- pandas DataFrame subtraction: cells aligned on the union of labels, NaN when a
label is missing on either side or either cell is NaN. -/
def pivotSub (a b : Pivot) : Pivot :=
  ⟨((a.keys ++ b.keys).dedup).map (fun k =>
    (k, match pivotLookup a k, pivotLookup b k with
        | some (some x), some (some y) => some (x - y)
        | _, _ => none))⟩

/-- pandas elementwise division of two pivots (used for the mean), `none` on a
zero denominator (float NaN/infinity) or missing label. -/
def pivotDivide (a b : Pivot) : Pivot :=
  ⟨((a.keys ++ b.keys).dedup).map (fun k =>
    (k, match pivotLookup a k, pivotLookup b k with
        | some (some x), some (some y) => if y == 0 then none else some (x / y)
        | _, _ => none))⟩

/-- `calculate_variable` of the pivot frame (scenarios.py lines 175-185): the
array of a variable known to the simulation, `none` for the all-NaN column of an
unknown one. -/
def pivotData (simulation : SimulationData) (v : String) : Option (List Rat) :=
  if (lookup simulation.column_by_name v).isSome then some (simulation.calculate v) else none

/-- Cell `i` of a pivot-frame column; `none` when the whole column is NaN. -/
def cellAt (o : Option (List Rat)) (i : Nat) : Option Rat :=
  o.map (fun l => l.getD i 0)

def mulNaN (a b : Option Rat) : Option Rat :=
  match a, b with
  | some x, some y => some (x * y)
  | _, _ => none

/-- pandas groupby-sum: skip the NaN cells, NaN when no cell of the group is
present. -/
def sumSkipNaN (l : List (Option Rat)) : Option Rat :=
  let present := l.filterMap id
  if present.isEmpty then none else some (listSum present)

/-- The body of `compute_pivot_table` after the difference dispatch (scenarios.py
lines 150-196): build the frame of index, values, columns, weight and filter
variables, multiply the first values column by weight and filter, and pivot with
a sum (`pivot_sum`) and the weight mass (`pivot_mass`). Rows whose group keys
contain NaN are dropped, as pandas does; only the first `values` column is
aggregated (the source's commented-out `assert len(values) == 1`). -/
def pivotCore (sc : Scenario) (aggfunc : String) (columns : List String)
    (filter_by : Option String) (index : List String) (reference : Bool)
    (values : List String) : Except PivotError Pivot := do
  let simulation := if reference then sc.reference_simulation else sc.simulation
  let v0 ← getOr values.head? .indexError
  let col0 ← getOr (lookup sc.tax_benefit_system.column_by_name v0) (.keyError v0)
  let entity_key := col0.entity
  let weight ← getOr (lookup sc.weight_column_name_by_entity entity_key) (.keyError entity_key)
  let vars := (index ++ values ++ columns ++ [weight] ++
    (match filter_by with | some f => [f] | none => [])).dedup
  let _ ← vars.mapM (fun v =>
    match lookup sc.tax_benefit_system.column_by_name v with
    | some c => if c.entity == entity_key then Except.ok () else Except.error (.assertionError v)
    | none => Except.error (.keyError v))
  let n ← getOr ((vars.filterMap (fun v => pivotData simulation v)).head?.map
    List.length) (.assertionError "all-scalar frame")
  let _ ← vars.mapM (fun v =>
    match pivotData simulation v with
    | some l => if l.length == n then Except.ok () else Except.error (.assertionError "length")
    | none => Except.ok ())
  let keyAt : Nat → List (Option Rat) × List (Option Rat) := fun i =>
    (index.map (fun v => cellAt (pivotData simulation v) i),
     columns.map (fun v => cellAt (pivotData simulation v) i))
  let rows := (List.range n).filter (fun i =>
    ((keyAt i).1 ++ (keyAt i).2).all (fun c => c.isSome))
  let valueCell : Nat → Option Rat := fun i =>
    mulNaN (mulNaN (cellAt (pivotData simulation v0) i) (cellAt (pivotData simulation weight) i))
      (match filter_by with
       | some f => cellAt (pivotData simulation f) i
       | none => some 1)
  let massCell : Nat → Option Rat := fun i => cellAt (pivotData simulation weight) i
  let keys := (rows.map keyAt).dedup
  let pivot_sum : Pivot :=
    ⟨keys.map (fun k => (k, sumSkipNaN ((rows.filter (fun i => keyAt i == k)).map valueCell)))⟩
  let pivot_mass : Pivot :=
    ⟨keys.map (fun k => (k, sumSkipNaN ((rows.filter (fun i => keyAt i == k)).map massCell)))⟩
  if aggfunc == "mean" then .ok (pivotDivide pivot_sum pivot_mass)
  else if aggfunc == "sum" then .ok pivot_sum
  else .ok pivot_mass

/-- scenarios.py lines 124-127. `tax_benefit_system` is a local variable only
assigned under `if filter_by is None:`, so the unconditional line 126 raises
UnboundLocalError whenever a filter is passed; otherwise the passed filter is
overwritten by the entity's configured filtering variable (line 127 is also
unconditional). -/
def pivotPreamble (sc : Scenario) (filter_byArg : Option String) (values : List String) :
    Except PivotError (Option String) :=
  match filter_byArg with
  | some _ => .error .unboundLocalTaxBenefitSystem
  | none => do
    let v0 ← getOr values.head? .indexError
    let col0 ← getOr (lookup sc.tax_benefit_system.column_by_name v0) (.keyError v0)
    .ok (lookup sc.filtering_variable_by_entity col0.entity)

/-- `compute_pivot_table` with `difference` not set: preamble then pivot body. -/
def compute_pivot_table_nodifference (sc : Scenario) (aggfunc : String)
    (columns : List String) (filter_byArg : Option String) (index : List String)
    (reference : Bool) (values : List String) : Except PivotError Pivot := do
  if !(["count", "mean", "sum"].contains aggfunc) then
    Except.error (.assertionError "aggfunc")
  else do
    let filter_by ← pivotPreamble sc filter_byArg values
    pivotCore sc aggfunc columns filter_by index reference values

/-- `compute_pivot_table` (scenarios.py lines 120-196). In difference mode (lines
143-148) the same pivot is computed on the current and the reference scenario —
passing the derived filter to both recursive calls, whose own preambles re-run —
and the results are subtracted. -/
def compute_pivot_table (sc : Scenario) (aggfunc : String) (columns : List String)
    (difference : Bool) (filter_byArg : Option String) (index : List String)
    (reference : Bool) (values : List String) : Except PivotError Pivot := do
  if !(["count", "mean", "sum"].contains aggfunc) then
    Except.error (.assertionError "aggfunc")
  else do
    let filter_by ← pivotPreamble sc filter_byArg values
    if difference then do
      let a ← compute_pivot_table_nodifference sc aggfunc columns filter_by index false values
      let b ← compute_pivot_table_nodifference sc aggfunc columns filter_by index true values
      .ok (pivotSub a b)
    else
      pivotCore sc aggfunc columns filter_by index reference values

/-! ## Identifier renaming on read (`Survey.get_values`, surveys.py lines 17 and
209-214) -/

def isAsciiDigit (c : Char) : Bool := '0' ≤ c && c ≤ '9'

/-- `ident_re = re.compile(u"(?i)ident\\d{2,4}$")` used with `re.match` (surveys.py
line 17): the whole name is "ident" (case-insensitive) followed by 2 to 4 digits. -/
def identMatch (s : String) : Bool :=
  let cs := s.toList
  let pre := cs.take 5
  let suf := cs.drop 5
  (pre.map Char.toLower == ['i', 'd', 'e', 'n', 't']) &&
    decide (2 ≤ suf.length) && decide (suf.length ≤ 4) && suf.all isAsciiDigit

/-- The renaming loop of `get_values` (surveys.py lines 209-214): walk the columns
in order, rename the first one matching `ident_re` to "ident", and `break`. -/
def rename_ident_columns : List String → List String
  | [] => []
  | c :: cs => if identMatch c then "ident" :: cs else c :: rename_ident_columns cs

/-! ## Concrete instances used by witnesses and counterexamples -/

/-- The spec's running example: a simulation with a person entity and the menage
(household) group entity. -/
def exSim : Simulation := ⟨[⟨"individus", true⟩, ⟨"menage", false⟩]⟩

/-- The spec's running example: 4 persons, household ids [1,1,2,2], roles
[0,1,0,1], a person-level float column with one missing value and a
household-level float column. -/
def exDf : DataFrame :=
  ⟨4, [("idmen", ⟨.int, [some 1, some 1, some 2, some 2]⟩),
       ("quimen", ⟨.int, [some 0, some 1, some 0, some 1]⟩),
       ("salaire", ⟨.float, [some 10, none, some 30, some 40]⟩),
       ("loyer", ⟨.float, [some 100, some 200, some 300, some 400]⟩)]⟩

def exTbs : TaxBenefitSystem :=
  ⟨[("salaire", ⟨"individus", .float, 0, false⟩),
    ("loyer", ⟨"menage", .float, 0, false⟩)]⟩

/-- The entity states expected on the example: person count 4, household count 2,
household role count 2. -/
def exStates : List (String × EntityState) :=
  [("individus", ⟨4, none, none, none⟩),
   ("menage", ⟨2, some 2, some [1, 1, 2, 2], some [0, 1, 0, 1]⟩)]

/-- A frame with mismatched household identifiers: 2 role-0 rows but 3 distinct
ids. -/
def exDfMismatch : DataFrame :=
  ⟨4, [("idmen", ⟨.int, [some 1, some 1, some 2, some 3]⟩),
       ("quimen", ⟨.int, [some 0, some 1, some 0, some 1]⟩)]⟩

/-- `calculate_add` results of the aggregation example simulation. -/
def exCalc : String → List Rat
  | "sal" => [10, 20]
  | "taille" => [3, 5]
  | "wprm" => [1, 3]
  | "filt" => [1, 0]
  | "idx" => [1, 2]
  | _ => []

def exAggColumns : List (String × Column) :=
  [("sal", ⟨"menage", .float, 0, false⟩),
   ("taille", ⟨"menage", .int, 0, false⟩),
   ("wprm", ⟨"menage", .float, 1, false⟩),
   ("filt", ⟨"menage", .bool, 1, false⟩),
   ("idx", ⟨"menage", .int, 0, false⟩)]

/-- A scenario without a configured filtering variable; the reference simulation
computes half the current values of `sal`. -/
def exScenario : Scenario :=
  { tax_benefit_system := ⟨exAggColumns⟩
    filtering_variable_by_entity := []
    weight_column_name_by_entity := [("menage", "wprm")]
    simulation := ⟨exAggColumns, exCalc⟩
    reference_simulation := ⟨exAggColumns, fun v => if v == "sal" then [5, 10] else exCalc v⟩ }

/-- The same scenario with a filtering variable configured for menage, and with a
variable `notinsim` that the scenario's schema declares but the simulations do
not compute. -/
def exScenarioFiltered : Scenario :=
  { tax_benefit_system := ⟨("notinsim", ⟨"menage", .float, 0, false⟩) :: exAggColumns⟩
    filtering_variable_by_entity := [("menage", "filt")]
    weight_column_name_by_entity := [("menage", "wprm")]
    simulation := ⟨exAggColumns, exCalc⟩
    reference_simulation := ⟨exAggColumns, fun v => if v == "sal" then [5, 10] else exCalc v⟩ }

/-! ## General lemmas about the `Except` plumbing -/

theorem bindError {ε α β : Type} (e : ε) (f : α → Except ε β) :
    (Except.error e >>= f) = (Except.error e : Except ε β) := rfl

theorem bindOk {ε α β : Type} (a : α) (f : α → Except ε β) :
    (Except.ok a >>= f) = f a := rfl

theorem pureOk {ε α : Type} (a : α) : (pure a : Except ε α) = Except.ok a := rfl

theorem getOr_some {ε α : Type} (a : α) (e : ε) : getOr (some a) e = Except.ok a := rfl

theorem getOr_none {ε α : Type} (e : ε) : getOr (none : Option α) e = Except.error e := rfl

theorem exceptMapMAux_ok_forall₂ {ε α β : Type} {f : α → Except ε β} :
    ∀ {l : List α} {l' : List β}, l.mapM' f = Except.ok l' →
      List.Forall₂ (fun a b => f a = Except.ok b) l l'
  | [], l', h => by
    simp only [List.mapM'_nil, pureOk] at h
    cases h
    exact List.Forall₂.nil
  | a :: t, l', h => by
    simp only [List.mapM'_cons] at h
    cases hfa : f a with
    | error e => rw [hfa, bindError] at h; cases h
    | ok b =>
      rw [hfa, bindOk] at h
      cases hft : t.mapM' f with
      | error e => rw [hft, bindError] at h; cases h
      | ok bs =>
        rw [hft, bindOk, pureOk] at h
        cases h
        exact List.Forall₂.cons hfa (exceptMapMAux_ok_forall₂ hft)

theorem exceptMapM_ok_forall₂ {ε α β : Type} {f : α → Except ε β} {l : List α} {l' : List β}
    (h : l.mapM f = Except.ok l') : List.Forall₂ (fun a b => f a = Except.ok b) l l' := by
  rw [← List.mapM'_eq_mapM] at h
  exact exceptMapMAux_ok_forall₂ h

theorem exceptMapMAux_error_mem {ε α β : Type} {f : α → Except ε β} :
    ∀ {l : List α} {e : ε}, l.mapM' f = Except.error e → ∃ a ∈ l, f a = Except.error e
  | [], e, h => by simp only [List.mapM'_nil, pureOk] at h; cases h
  | a :: t, e, h => by
    simp only [List.mapM'_cons] at h
    cases hfa : f a with
    | error e₁ =>
      rw [hfa, bindError] at h
      cases h
      exact ⟨a, List.mem_cons_self a t, hfa⟩
    | ok b =>
      rw [hfa, bindOk] at h
      cases hft : t.mapM' f with
      | error e₁ =>
        rw [hft, bindError] at h
        cases h
        obtain ⟨x, hx, hfx⟩ := exceptMapMAux_error_mem hft
        exact ⟨x, List.mem_cons_of_mem a hx, hfx⟩
      | ok bs => rw [hft, bindOk, pureOk] at h; cases h

theorem exceptMapM_error_mem {ε α β : Type} {f : α → Except ε β} {l : List α} {e : ε}
    (h : l.mapM f = Except.error e) : ∃ a ∈ l, f a = Except.error e := by
  rw [← List.mapM'_eq_mapM] at h
  exact exceptMapMAux_error_mem h

theorem exceptMapM_ok_of_ok {ε α β : Type} {f : α → Except ε β} :
    ∀ {l : List α}, (∀ a ∈ l, ∃ b, f a = Except.ok b) → ∃ l', l.mapM f = Except.ok l' := by
  intro l
  induction l with
  | nil => intro _; exact ⟨[], rfl⟩
  | cons a t ih =>
    intro hall
    obtain ⟨b, hb⟩ := hall a (List.mem_cons_self a t)
    obtain ⟨bs, hbs⟩ := ih (fun x hx => hall x (List.mem_cons_of_mem a hx))
    refine ⟨b :: bs, ?_⟩
    rw [← List.mapM'_eq_mapM] at hbs ⊢
    simp only [List.mapM'_cons, hb, bindOk, hbs, pureOk]

theorem ratTrunc_intCast (n : Int) : ratTrunc ((n : Int) : Rat) = n := by
  simp [ratTrunc, Rat.num_intCast, Rat.den_intCast]

theorem ratTrunc_den_one {q : Rat} (h : q.den = 1) : ratTrunc q = q.num := by
  simp [ratTrunc, h]

/-! ## C1 -/

/-- C1: for every input table and declared entity set, on success of the entity
loop, a person entity's count is the number of rows of the input table, a
non-person entity's count is the number of rows whose role column equals 0, and a
non-person entity's role count is the maximum role value plus 1 (the spec's
concrete 4-person example is the witness `C1_entity_and_role_counts_witness`). -/
theorem C1_entity_and_role_counts (sim : Simulation) (df : DataFrame)
    (states : List (String × EntityState))
    (hok : initEntities sim df = Except.ok states) :
    List.Forall₂ (fun (e : Entity) (p : String × EntityState) =>
      p.1 = e.key ∧
      (e.is_person = true → p.2.count = df.nrows) ∧
      (e.is_person = false → ∀ roleVar roleSerie m,
        role_variable_by_entity_key e.key = some roleVar →
        df.get? roleVar = some roleSerie →
        maxPresent roleSerie.values = some m → m.den = 1 →
        p.2.count = countRole0 roleSerie.values ∧ p.2.roles_count = some (m.num + 1)))
      sim.entities states := by
  have h := exceptMapM_ok_forall₂ hok
  refine h.imp ?_
  intro e p hpe
  cases he : e.is_person with
  | true =>
    rw [processEntity, he] at hpe
    simp only [if_pos] at hpe
    cases hpe
    exact ⟨rfl, fun _ => rfl, fun hfalse => by cases hfalse⟩
  | false =>
    rw [processEntity, he] at hpe
    simp only [Bool.false_eq_true, if_false] at hpe
    refine ⟨?_, ?_, ?_⟩
    · cases hrv : role_variable_by_entity_key e.key with
      | none => rw [hrv, getOr_none, bindError] at hpe; cases hpe
      | some roleVar =>
        rw [hrv, getOr_some, bindOk] at hpe
        cases hrs : df.get? roleVar with
        | none => rw [hrs, getOr_none, bindError] at hpe; cases hpe
        | some roleSerie =>
          rw [hrs, getOr_some, bindOk] at hpe
          cases hmp : maxPresent roleSerie.values with
          | none => rw [hmp, getOr_none, bindError] at hpe; cases hpe
          | some m =>
            rw [hmp, getOr_some, bindOk] at hpe
            cases hiv : id_variable_by_entity_key e.key with
            | none => rw [hiv, getOr_none, bindError] at hpe; cases hpe
            | some idVar =>
              rw [hiv, getOr_some, bindOk] at hpe
              cases his : df.get? idVar with
              | none => rw [his, getOr_none, bindError] at hpe; cases hpe
              | some idSerie =>
                rw [his, getOr_some, bindOk] at hpe
                split at hpe
                · cases hpe
                · cases hm1 : seriesToInt idVar idSerie.values with
                  | error e1 => rw [hm1, bindError] at hpe; cases hpe
                  | ok mei =>
                    rw [hm1, bindOk] at hpe
                    cases hm2 : seriesToInt roleVar roleSerie.values with
                    | error e2 => rw [hm2, bindError] at hpe; cases hpe
                    | ok mlr =>
                      rw [hm2, bindOk] at hpe
                      cases hpe
                      rfl
    · intro htrue; simp at htrue
    · intro _ roleVar roleSerie m hrv hrs hmp hden
      rw [hrv, getOr_some, bindOk, hrs, getOr_some, bindOk, hmp, getOr_some, bindOk] at hpe
      cases hiv : id_variable_by_entity_key e.key with
      | none => rw [hiv, getOr_none, bindError] at hpe; cases hpe
      | some idVar =>
        rw [hiv, getOr_some, bindOk] at hpe
        cases his : df.get? idVar with
        | none => rw [his, getOr_none, bindError] at hpe; cases hpe
        | some idSerie =>
          rw [his, getOr_some, bindOk] at hpe
          split at hpe
          · cases hpe
          · cases hm1 : seriesToInt idVar idSerie.values with
            | error e1 => rw [hm1, bindError] at hpe; cases hpe
            | ok mei =>
              rw [hm1, bindOk] at hpe
              cases hm2 : seriesToInt roleVar roleSerie.values with
              | error e2 => rw [hm2, bindError] at hpe; cases hpe
              | ok mlr =>
                rw [hm2, bindOk] at hpe
                cases hpe
                refine ⟨rfl, ?_⟩
                have hm : ((m.num : Int) : Rat) = m := (Rat.den_eq_one_iff m).mp hden
                have hcast : m + 1 = (((m.num + 1 : Int)) : Rat) := by push_cast [hm]; ring
                rw [hcast, ratTrunc_intCast]

/-- Witness for C1: the spec's example — 4 persons, household ids [1,1,2,2], roles
[0,1,0,1] — yields household count 2, household role count 2, person count 4. -/
theorem C1_entity_and_role_counts_witness :
    (initEntities exSim exDf = Except.ok exStates ∧
      exStates = [("individus", ⟨4, none, none, none⟩),
        ("menage", ⟨2, some 2, some [1, 1, 2, 2], some [0, 1, 0, 1]⟩)]) ∧
    List.Forall₂ (fun (e : Entity) (p : String × EntityState) =>
      p.1 = e.key ∧
      (e.is_person = true → p.2.count = exDf.nrows) ∧
      (e.is_person = false → ∀ roleVar roleSerie m,
        role_variable_by_entity_key e.key = some roleVar →
        exDf.get? roleVar = some roleSerie →
        maxPresent roleSerie.values = some m → m.den = 1 →
        p.2.count = countRole0 roleSerie.values ∧ p.2.roles_count = some (m.num + 1)))
      exSim.entities exStates :=
  ⟨⟨by with_unfolding_all rfl, rfl⟩,
    C1_entity_and_role_counts exSim exDf exStates (by with_unfolding_all rfl)⟩



theorem forall₂_mem_left {α β : Type} {R : α → β → Prop} :
    ∀ {l : List α} {l' : List β}, List.Forall₂ R l l' → ∀ a ∈ l, ∃ b ∈ l', R a b := by
  intro l l' h
  induction h with
  | nil => intro a ha; cases ha
  | cons hr _ ih =>
    intro x hx
    rcases List.mem_cons.mp hx with rfl | hx'
    · exact ⟨_, List.mem_cons_self _ _, hr⟩
    · obtain ⟨b, hb, hRb⟩ := ih x hx'
      exact ⟨b, List.mem_cons_of_mem _ hb, hRb⟩

theorem lookup_cons_pos {α : Type} {a : String × α} {t : List (String × α)} {n : String}
    (hn : (a.1 == n) = true) : lookup (a :: t) n = some a.2 := by
  simp [lookup, List.find?_cons_of_pos, hn]

theorem lookup_cons_neg {α : Type} {a : String × α} {t : List (String × α)} {n : String}
    (hn : (a.1 == n) = false) : lookup (a :: t) n = lookup t n := by
  simp [lookup, List.find?_cons_of_neg, hn]

theorem lookup_filter_eq {α : Type} (p : String × α → Bool) (n : String)
    (hp : ∀ s, p (n, s) = true) :
    ∀ (l : List (String × α)), lookup (l.filter p) n = lookup l n := by
  intro l
  induction l with
  | nil => rfl
  | cons a t ih =>
    cases hpa : p a with
    | true =>
      rw [List.filter_cons_of_pos hpa]
      cases hn : (a.1 == n) with
      | true => rw [lookup_cons_pos hn, lookup_cons_pos hn]
      | false => rw [lookup_cons_neg hn, lookup_cons_neg hn, ih]
    | false =>
      rw [List.filter_cons_of_neg (by simp [hpa])]
      have hn : (a.1 == n) = false := by
        cases hn : (a.1 == n) with
        | false => rfl
        | true =>
          exfalso
          have ha : a = (n, a.2) := by
            obtain ⟨a1, a2⟩ := a
            have : a1 = n := by simpa using hn
            rw [this]
          rw [ha, hp a.2] at hpa
          cases hpa
      rw [lookup_cons_neg hn, ih]



theorem filterPass2Cols_lookup {cbn : List (String × Column)} {idv rolev uaiv : List String}
    {n : String} (hn : ((idv ++ rolev).contains n) = true) :
    ∀ {cols cols' : List (String × Series)},
      filterPass2Cols cbn idv rolev uaiv cols = Except.ok cols' →
      lookup cols' n = lookup cols n := by
  intro cols
  induction cols with
  | nil =>
    intro cols' h
    rw [filterPass2Cols] at h
    cases h
    rfl
  | cons a t ih =>
    intro cols' h
    rw [filterPass2Cols] at h
    cases hc : ((idv ++ rolev).contains a.1) with
    | true =>
      rw [hc] at h
      simp only [if_pos, pureOk, bindOk] at h
      cases ht : filterPass2Cols cbn idv rolev uaiv t with
      | error e => rw [ht, bindError] at h; cases h
      | ok rest' =>
        rw [ht, bindOk] at h
        cases h
        cases hn1 : (a.1 == n) with
        | true => rw [lookup_cons_pos hn1, lookup_cons_pos hn1]
        | false => rw [lookup_cons_neg hn1, lookup_cons_neg hn1]; exact ih ht
    | false =>
      rw [hc] at h
      simp only [Bool.false_eq_true, if_false] at h
      have hn1 : (a.1 == n) = false := by
        cases hn1 : (a.1 == n) with
        | false => rfl
        | true =>
          have : a.1 = n := by simpa using hn1
          rw [this, hn] at hc
          cases hc
      cases hcol : lookup cbn a.1 with
      | none => rw [hcol] at h; cases h
      | some col =>
        rw [hcol] at h
        simp only [pureOk, bindOk] at h
        cases ht : filterPass2Cols cbn idv rolev uaiv t with
        | error e => rw [ht, bindError] at h; cases h
        | ok rest' =>
          rw [ht, bindOk] at h
          cases hkeep : (!col.has_formula_function || uaiv.contains a.1) with
          | true =>
            rw [hkeep] at h
            simp only [if_pos] at h
            cases h
            rw [lookup_cons_neg hn1, lookup_cons_neg hn1]
            exact ih ht
          | false =>
            rw [hkeep] at h
            simp only [Bool.false_eq_true, if_false] at h
            cases h
            rw [lookup_cons_neg hn1]
            exact ih ht

theorem filterPass2Cols_error_shape {cbn : List (String × Column)} {idv rolev uaiv : List String} :
    ∀ {cols : List (String × Series)} {err : InitError},
      filterPass2Cols cbn idv rolev uaiv cols = Except.error err →
      ∃ x, err = InitError.keyError x := by
  intro cols
  induction cols with
  | nil => intro err h; rw [filterPass2Cols] at h; cases h
  | cons a t ih =>
    intro err h
    rw [filterPass2Cols] at h
    cases hc : ((idv ++ rolev).contains a.1) with
    | true =>
      rw [hc] at h
      simp only [if_pos, pureOk, bindOk] at h
      cases ht : filterPass2Cols cbn idv rolev uaiv t with
      | error e =>
        rw [ht, bindError] at h
        cases h
        exact ih ht
      | ok rest' => rw [ht, bindOk] at h; cases h
    | false =>
      rw [hc] at h
      simp only [Bool.false_eq_true, if_false] at h
      cases hcol : lookup cbn a.1 with
      | none =>
        rw [hcol] at h
        cases h
        exact ⟨a.1, rfl⟩
      | some col =>
        rw [hcol] at h
        simp only [pureOk, bindOk] at h
        cases ht : filterPass2Cols cbn idv rolev uaiv t with
        | error e =>
          rw [ht, bindError] at h
          cases h
          exact ih ht
        | ok rest' =>
          rw [ht, bindOk] at h
          cases hkeep : (!col.has_formula_function || uaiv.contains a.1) with
          | true => rw [hkeep] at h; simp only [if_pos] at h; cases h
          | false =>
            rw [hkeep] at h
            simp only [Bool.false_eq_true, if_false] at h
            cases h



theorem seriesToInt_error_shape {name : String} {vals : List (Option Rat)} {err : InitError}
    (h : seriesToInt name vals = Except.error err) : err = InitError.astypeNaN name := by
  obtain ⟨v, _, hfv⟩ := exceptMapM_error_mem h
  cases v with
  | none => cases hfv; rfl
  | some q => cases hfv

theorem castCell_error_shape {dtype : DType} {name : String} {v : Option Rat} {err : InitError}
    (h : castCell dtype name v = Except.error err) : err = InitError.astypeNaN name := by
  cases dtype with
  | float => cases h
  | int => cases v with
    | some q => cases h
    | none => cases h; rfl
  | bool => cases v with
    | some q => cases h
    | none => cases h; rfl

theorem filledValues_all_isSome (d : Rat) (s : Series) (hf : s.dtype = DType.float) :
    (filledValues d s).all (fun v => v.isSome) = true := by
  rw [filledValues, hf]
  cases hany : s.values.any (fun v => v.isNone) with
  | true =>
    simp only [beq_self_eq_true, Bool.true_and, if_pos]
    rw [fillMissing]
    simp [List.all_eq_true]
  | false =>
    simp only [beq_self_eq_true, Bool.true_and, hany, Bool.false_eq_true, if_false]
    rw [List.all_eq_true]
    intro v hv
    have hnot : ¬(s.values.any (fun v => v.isNone) = true) := by rw [hany]; exact Bool.false_ne_true
    rw [List.any_eq_true] at hnot
    push_neg at hnot
    have := hnot v hv
    cases v with
    | none => simp at this
    | some q => rfl

theorem processEntity_ok_counts {df : DataFrame} {e : Entity} {p : String × EntityState}
    (he : e.is_person = false) (h : processEntity df e = Except.ok p)
    {roleVar idVar : String} {roleSerie idSerie : Series}
    (hrv : role_variable_by_entity_key e.key = some roleVar)
    (hiv : id_variable_by_entity_key e.key = some idVar)
    (hrs : df.get? roleVar = some roleSerie)
    (his : df.get? idVar = some idSerie) :
    countRole0 roleSerie.values = uniqueCount idSerie.values := by
  rw [processEntity, he] at h
  simp only [Bool.false_eq_true, if_false] at h
  rw [hrv, getOr_some, bindOk, hrs, getOr_some, bindOk] at h
  cases hmp : maxPresent roleSerie.values with
  | none => rw [hmp, getOr_none, bindError] at h; cases h
  | some m =>
    rw [hmp, getOr_some, bindOk, hiv, getOr_some, bindOk, his, getOr_some, bindOk] at h
    split at h
    · cases h
    · omega

theorem processEntity_error_idsMismatch {df : DataFrame} {e : Entity} {k : String}
    (h : processEntity df e = Except.error (InitError.idsMismatch k)) :
    e.is_person = false ∧ k = e.key ∧ ∃ roleVar idVar roleSerie idSerie,
      role_variable_by_entity_key e.key = some roleVar ∧
      id_variable_by_entity_key e.key = some idVar ∧
      df.get? roleVar = some roleSerie ∧ df.get? idVar = some idSerie ∧
      countRole0 roleSerie.values ≠ uniqueCount idSerie.values := by
  cases he : e.is_person with
  | true => rw [processEntity, he] at h; simp only [if_pos] at h; cases h
  | false =>
    rw [processEntity, he] at h
    simp only [Bool.false_eq_true, if_false] at h
    refine ⟨rfl, ?_⟩
    cases hrv : role_variable_by_entity_key e.key with
    | none => rw [hrv, getOr_none, bindError] at h; cases h
    | some roleVar =>
      rw [hrv, getOr_some, bindOk] at h
      cases hrs : df.get? roleVar with
      | none => rw [hrs, getOr_none, bindError] at h; cases h
      | some roleSerie =>
        rw [hrs, getOr_some, bindOk] at h
        cases hmp : maxPresent roleSerie.values with
        | none => rw [hmp, getOr_none, bindError] at h; cases h
        | some m =>
          rw [hmp, getOr_some, bindOk] at h
          cases hiv : id_variable_by_entity_key e.key with
          | none => rw [hiv, getOr_none, bindError] at h; cases h
          | some idVar =>
            rw [hiv, getOr_some, bindOk] at h
            cases his : df.get? idVar with
            | none => rw [his, getOr_none, bindError] at h; cases h
            | some idSerie =>
              rw [his, getOr_some, bindOk] at h
              split at h
              · cases h
                exact ⟨rfl, roleVar, idVar, roleSerie, idSerie, rfl, rfl, hrs, his, by omega⟩
              · cases hm1 : seriesToInt idVar idSerie.values with
                | error e1 =>
                  rw [hm1, bindError] at h
                  cases h
                  have := seriesToInt_error_shape hm1
                  cases this
                | ok mei =>
                  rw [hm1, bindOk] at h
                  cases hm2 : seriesToInt roleVar roleSerie.values with
                  | error e2 =>
                    rw [hm2, bindError] at h
                    cases h
                    have := seriesToInt_error_shape hm2
                    cases this
                  | ok mlr => rw [hm2, bindOk] at h; cases h



theorem processEntity_error_shape {df : DataFrame} {e : Entity} {err : InitError}
    (h : processEntity df e = Except.error err) :
    (∃ x, err = InitError.keyError x) ∨ err = InitError.rolesCountNotInt e.key ∨
    err = InitError.idsMismatch e.key ∨ (∃ x, err = InitError.astypeNaN x) := by
  cases he : e.is_person with
  | true => rw [processEntity, he] at h; simp only [if_pos] at h; cases h
  | false =>
    rw [processEntity, he] at h
    simp only [Bool.false_eq_true, if_false] at h
    cases hrv : role_variable_by_entity_key e.key with
    | none => rw [hrv, getOr_none, bindError] at h; cases h; exact Or.inl ⟨e.key, rfl⟩
    | some roleVar =>
      rw [hrv, getOr_some, bindOk] at h
      cases hrs : df.get? roleVar with
      | none => rw [hrs, getOr_none, bindError] at h; cases h; exact Or.inl ⟨roleVar, rfl⟩
      | some roleSerie =>
        rw [hrs, getOr_some, bindOk] at h
        cases hmp : maxPresent roleSerie.values with
        | none => rw [hmp, getOr_none, bindError] at h; cases h; exact Or.inr (Or.inl rfl)
        | some m =>
          rw [hmp, getOr_some, bindOk] at h
          cases hiv : id_variable_by_entity_key e.key with
          | none => rw [hiv, getOr_none, bindError] at h; cases h; exact Or.inl ⟨e.key, rfl⟩
          | some idVar =>
            rw [hiv, getOr_some, bindOk] at h
            cases his : df.get? idVar with
            | none => rw [his, getOr_none, bindError] at h; cases h; exact Or.inl ⟨idVar, rfl⟩
            | some idSerie =>
              rw [his, getOr_some, bindOk] at h
              split at h
              · cases h; exact Or.inr (Or.inr (Or.inl rfl))
              · cases hm1 : seriesToInt idVar idSerie.values with
                | error e1 =>
                  rw [hm1, bindError] at h
                  cases h
                  exact Or.inr (Or.inr (Or.inr ⟨idVar, seriesToInt_error_shape hm1⟩))
                | ok mei =>
                  rw [hm1, bindOk] at h
                  cases hm2 : seriesToInt roleVar roleSerie.values with
                  | error e2 =>
                    rw [hm2, bindError] at h
                    cases h
                    exact Or.inr (Or.inr (Or.inr ⟨roleVar, seriesToInt_error_shape hm2⟩))
                  | ok mlr => rw [hm2, bindOk] at h; cases h

theorem processColumn_error_shape {cbn : List (String × Column)} {ents : List Entity}
    {sts : List (String × EntityState)} {df : DataFrame} {name : String} {serie : Series}
    {err : InitError}
    (h : processColumn cbn ents sts df name serie = Except.error err) :
    (∃ x, err = InitError.keyError x) ∨ (∃ x, err = InitError.astypeNaN x) ∨
    (∃ x, err = InitError.badSize x) := by
  rw [processColumn] at h
  cases hskip : ((role_variable_values ++ id_variable_values).contains name) with
  | true => rw [hskip] at h; simp only [if_pos] at h; cases h
  | false =>
    rw [hskip] at h
    simp only [Bool.false_eq_true, if_false] at h
    cases hcol : lookup cbn name with
    | none => rw [hcol, getOr_none, bindError] at h; cases h; exact Or.inl ⟨name, rfl⟩
    | some col =>
      rw [hcol, getOr_some, bindOk] at h
      cases hent : ents.find? (fun e => e.key == col.entity) with
      | none => rw [hent, getOr_none, bindError] at h; cases h; exact Or.inl ⟨col.entity, rfl⟩
      | some entity =>
        rw [hent, getOr_some, bindOk] at h
        cases hst : lookup sts col.entity with
        | none => rw [hst, getOr_none, bindError] at h; cases h; exact Or.inl ⟨col.entity, rfl⟩
        | some st =>
          rw [hst, getOr_some, bindOk] at h
          have tail :
              ∀ (filled : List (Option Rat)),
                ((if entity.is_person = true then do
                    let y ← filled.mapM (castCell col.dtype name)
                    if y.length = st.count then Except.ok (some (name, y))
                    else Except.error (InitError.badSize name)
                  else do
                    let roleVar ← getOr (role_variable_by_entity_key entity.key)
                      (InitError.keyError entity.key)
                    let roleSerie ← getOr (df.get? roleVar) (InitError.keyError roleVar)
                    let y ← (selectRole0 roleSerie.values filled).mapM (castCell col.dtype name)
                    if y.length = st.count then Except.ok (some (name, y))
                    else Except.error (InitError.badSize name)) :
                  Except InitError (Option (String × List (Option Rat)))) = Except.error err →
                (∃ x, err = InitError.keyError x) ∨ (∃ x, err = InitError.astypeNaN x) ∨
                (∃ x, err = InitError.badSize x) := by
            intro filled htail
            cases hip : entity.is_person with
            | true =>
              rw [hip] at htail
              simp only [if_pos] at htail
              cases hmc : filled.mapM (castCell col.dtype name) with
              | error e1 =>
                rw [hmc, bindError] at htail
                cases htail
                obtain ⟨v, _, hv⟩ := exceptMapM_error_mem hmc
                exact Or.inr (Or.inl ⟨name, castCell_error_shape hv⟩)
              | ok arr =>
                rw [hmc, bindOk] at htail
                split at htail
                · cases htail
                · cases htail; exact Or.inr (Or.inr ⟨name, rfl⟩)
            | false =>
              rw [hip] at htail
              simp only [Bool.false_eq_true, if_false] at htail
              cases hrv : role_variable_by_entity_key entity.key with
              | none =>
                rw [hrv, getOr_none, bindError] at htail
                cases htail
                exact Or.inl ⟨entity.key, rfl⟩
              | some roleVar =>
                rw [hrv, getOr_some, bindOk] at htail
                cases hrs : df.get? roleVar with
                | none =>
                  rw [hrs, getOr_none, bindError] at htail
                  cases htail
                  exact Or.inl ⟨roleVar, rfl⟩
                | some roleSerie =>
                  rw [hrs, getOr_some, bindOk] at htail
                  cases hmc : (selectRole0 roleSerie.values filled).mapM
                      (castCell col.dtype name) with
                  | error e1 =>
                    rw [hmc, bindError] at htail
                    cases htail
                    obtain ⟨v, _, hv⟩ := exceptMapM_error_mem hmc
                    exact Or.inr (Or.inl ⟨name, castCell_error_shape hv⟩)
                  | ok arr =>
                    rw [hmc, bindOk] at htail
                    split at htail
                    · cases htail
                    · cases htail; exact Or.inr (Or.inr ⟨name, rfl⟩)
          cases hdt : (serie.dtype == DType.float) with
          | true =>
            rw [hdt] at h
            simp only [if_pos] at h
            rw [filledValues_all_isSome col.default serie (by simpa using hdt)] at h
            simp only [if_pos, pureOk, bindOk] at h
            exact tail _ h
          | false =>
            rw [hdt] at h
            simp only [Bool.false_eq_true, if_false, pureOk, bindOk] at h
            exact tail _ h



theorem getOr_error_eq {ε α : Type} {o : Option α} {e err : ε}
    (h : getOr o e = Except.error err) : err = e := by
  cases o with
  | none => cases h; rfl
  | some a => cases h

theorem idRoleVariables_error_shape {sim : Simulation} {err : InitError}
    (h : idRoleVariables sim = Except.error err) : ∃ x, err = InitError.keyError x := by
  rw [idRoleVariables] at h
  cases h1 : (sim.entities.filter (fun e => !e.is_person)).mapM
      (fun e => getOr (id_variable_by_entity_key e.key) (InitError.keyError e.key)) with
  | error e1 =>
    rw [h1, bindError] at h
    cases h
    obtain ⟨a, _, ha⟩ := exceptMapM_error_mem h1
    exact ⟨a.key, getOr_error_eq ha⟩
  | ok idv =>
    rw [h1, bindOk] at h
    cases h2 : (sim.entities.filter (fun e => !e.is_person)).mapM
        (fun e => getOr (role_variable_by_entity_key e.key) (InitError.keyError e.key)) with
    | error e2 =>
      rw [h2, bindError] at h
      cases h
      obtain ⟨a, _, ha⟩ := exceptMapM_error_mem h2
      exact ⟨a.key, getOr_error_eq ha⟩
    | ok rolev => rw [h2, bindOk] at h; cases h

theorem checkIdRolePresence_error_shape {df : DataFrame} {idv rolev : List String}
    {err : InitError} (h : checkIdRolePresence df idv rolev = Except.error err) :
    ∃ x, err = InitError.missingIdVariable x := by
  rw [checkIdRolePresence] at h
  cases h1 : (idv ++ rolev).mapM
      (fun v => if df.columnNames.contains v then Except.ok () else
        Except.error (InitError.missingIdVariable v)) with
  | error e1 =>
    rw [h1, bindError] at h
    cases h
    obtain ⟨a, _, ha⟩ := exceptMapM_error_mem h1
    cases hc : df.columnNames.contains a with
    | true => rw [hc] at ha; simp only [if_pos] at ha; cases ha
    | false =>
      rw [hc] at ha
      simp only [Bool.false_eq_true, if_false] at ha
      cases ha
      exact ⟨a, rfl⟩
  | ok u => rw [h1, bindOk] at h; cases h

theorem filter_input_variables_error_shape {cbn : List (String × Column)}
    {idv rolev uaiv : List String} {df : DataFrame} {err : InitError}
    (h : filter_input_variables cbn idv rolev uaiv df = Except.error err) :
    ∃ x, err = InitError.keyError x := by
  rw [filter_input_variables] at h
  cases h1 : filterPass2Cols cbn idv rolev uaiv (filterPass1 cbn idv rolev df).cols with
  | error e1 =>
    rw [h1, bindError] at h
    cases h
    exact filterPass2Cols_error_shape h1
  | ok cols => rw [h1, bindOk] at h; cases h

theorem filteredFrame_ok_parts {tbs : TaxBenefitSystem} {sim : Simulation}
    {uaiv : List String} {df df' : DataFrame}
    (h : filteredFrame tbs sim uaiv df = Except.ok df') :
    ∃ idv rolev, idRoleVariables sim = Except.ok (idv, rolev) ∧
      filter_input_variables tbs.column_by_name idv rolev uaiv df = Except.ok df' := by
  rw [filteredFrame] at h
  cases h1 : idRoleVariables sim with
  | error e1 => rw [h1, bindError] at h; cases h
  | ok pr =>
    rw [h1, bindOk] at h
    obtain ⟨idv, rolev⟩ := pr
    dsimp only at h
    cases h2 : checkIdRolePresence df idv rolev with
    | error e2 => rw [h2, bindError] at h; cases h
    | ok u => rw [h2, bindOk] at h; exact ⟨idv, rolev, rfl, h⟩

theorem filteredFrame_error_shape {tbs : TaxBenefitSystem} {sim : Simulation}
    {uaiv : List String} {df : DataFrame} {err : InitError}
    (h : filteredFrame tbs sim uaiv df = Except.error err) :
    (∃ x, err = InitError.keyError x) ∨ (∃ x, err = InitError.missingIdVariable x) := by
  rw [filteredFrame] at h
  cases h1 : idRoleVariables sim with
  | error e1 =>
    rw [h1, bindError] at h
    cases h
    exact Or.inl (idRoleVariables_error_shape h1)
  | ok pr =>
    rw [h1, bindOk] at h
    obtain ⟨idv, rolev⟩ := pr
    dsimp only at h
    cases h2 : checkIdRolePresence df idv rolev with
    | error e2 =>
      rw [h2, bindError] at h
      cases h
      exact Or.inr (checkIdRolePresence_error_shape h2)
    | ok u =>
      rw [h2, bindOk] at h
      exact Or.inl (filter_input_variables_error_shape h)

theorem filter_input_variables_lookup {cbn : List (String × Column)}
    {idv rolev uaiv : List String} {df df' : DataFrame} {n : String}
    (h : filter_input_variables cbn idv rolev uaiv df = Except.ok df')
    (hn : ((idv ++ rolev).contains n) = true) : df'.get? n = df.get? n := by
  rw [filter_input_variables] at h
  cases h1 : filterPass2Cols cbn idv rolev uaiv (filterPass1 cbn idv rolev df).cols with
  | error e1 => rw [h1, bindError] at h; cases h
  | ok cols =>
    rw [h1, bindOk] at h
    cases h
    show lookup cols n = lookup df.cols n
    rw [filterPass2Cols_lookup hn h1]
    show lookup ((filterPass1 cbn idv rolev df).cols) n = lookup df.cols n
    rw [filterPass1]
    exact lookup_filter_eq _ n (fun s => by rw [hn, Bool.true_or]) df.cols

theorem init_ok_parts {tbs : TaxBenefitSystem} {sim : Simulation} {uaiv : List String}
    {df : DataFrame} {out : List (String × EntityState) × List (String × List (Option Rat))}
    (h : init_simulation_with_data_frame tbs sim uaiv df = Except.ok out) :
    ∃ df' states arrays, filteredFrame tbs sim uaiv df = Except.ok df' ∧
      initEntities sim df' = Except.ok states ∧
      initColumns tbs.column_by_name sim.entities states df' = Except.ok arrays ∧
      out = (states, arrays) := by
  rw [init_simulation_with_data_frame] at h
  cases h1 : filteredFrame tbs sim uaiv df with
  | error e1 => rw [h1, bindError] at h; cases h
  | ok df' =>
    rw [h1, bindOk] at h
    cases h2 : initEntities sim df' with
    | error e2 => rw [h2, bindError] at h; cases h
    | ok states =>
      rw [h2, bindOk] at h
      cases h3 : initColumns tbs.column_by_name sim.entities states df' with
      | error e3 => rw [h3, bindError] at h; cases h
      | ok arrays =>
        rw [h3, bindOk] at h
        cases h
        exact ⟨df', states, arrays, rfl, h2, h3, rfl⟩

theorem init_error_parts {tbs : TaxBenefitSystem} {sim : Simulation} {uaiv : List String}
    {df : DataFrame} {err : InitError}
    (h : init_simulation_with_data_frame tbs sim uaiv df = Except.error err) :
    filteredFrame tbs sim uaiv df = Except.error err ∨
    (∃ df', filteredFrame tbs sim uaiv df = Except.ok df' ∧
      (initEntities sim df' = Except.error err ∨
        (∃ states, initEntities sim df' = Except.ok states ∧
          initColumns tbs.column_by_name sim.entities states df' = Except.error err))) := by
  rw [init_simulation_with_data_frame] at h
  cases h1 : filteredFrame tbs sim uaiv df with
  | error e1 => rw [h1, bindError] at h; cases h; exact Or.inl rfl
  | ok df' =>
    rw [h1, bindOk] at h
    cases h2 : initEntities sim df' with
    | error e2 =>
      rw [h2, bindError] at h
      cases h
      exact Or.inr ⟨df', rfl, Or.inl h2⟩
    | ok states =>
      rw [h2, bindOk] at h
      cases h3 : initColumns tbs.column_by_name sim.entities states df' with
      | error e3 =>
        rw [h3, bindError] at h
        cases h
        exact Or.inr ⟨df', rfl, Or.inr ⟨states, h2, h3⟩⟩
      | ok arrays => rw [h3, bindOk] at h; cases h

theorem idRoleVariables_ok_mem_role {sim : Simulation} {idv rolev : List String}
    (h : idRoleVariables sim = Except.ok (idv, rolev)) {e : Entity}
    (he : e ∈ sim.entities) (hp : e.is_person = false) {rv : String}
    (hrv : role_variable_by_entity_key e.key = some rv) : rv ∈ rolev := by
  rw [idRoleVariables] at h
  cases h1 : (sim.entities.filter (fun e => !e.is_person)).mapM
      (fun e => getOr (id_variable_by_entity_key e.key) (InitError.keyError e.key)) with
  | error e1 => rw [h1, bindError] at h; cases h
  | ok idv' =>
    rw [h1, bindOk] at h
    cases h2 : (sim.entities.filter (fun e => !e.is_person)).mapM
        (fun e => getOr (role_variable_by_entity_key e.key) (InitError.keyError e.key)) with
    | error e2 => rw [h2, bindError] at h; cases h
    | ok rolev' =>
      rw [h2, bindOk] at h
      cases h
      have hmem : e ∈ sim.entities.filter (fun e => !e.is_person) := by
        rw [List.mem_filter]
        exact ⟨he, by rw [hp]; rfl⟩
      obtain ⟨b, hb, hab⟩ := forall₂_mem_left (exceptMapM_ok_forall₂ h2) e hmem
      rw [hrv, getOr_some] at hab
      cases hab
      exact hb

theorem idRoleVariables_ok_mem_id {sim : Simulation} {idv rolev : List String}
    (h : idRoleVariables sim = Except.ok (idv, rolev)) {e : Entity}
    (he : e ∈ sim.entities) (hp : e.is_person = false) {iv : String}
    (hiv : id_variable_by_entity_key e.key = some iv) : iv ∈ idv := by
  rw [idRoleVariables] at h
  cases h1 : (sim.entities.filter (fun e => !e.is_person)).mapM
      (fun e => getOr (id_variable_by_entity_key e.key) (InitError.keyError e.key)) with
  | error e1 => rw [h1, bindError] at h; cases h
  | ok idv' =>
    rw [h1, bindOk] at h
    cases h2 : (sim.entities.filter (fun e => !e.is_person)).mapM
        (fun e => getOr (role_variable_by_entity_key e.key) (InitError.keyError e.key)) with
    | error e2 => rw [h2, bindError] at h; cases h
    | ok rolev' =>
      rw [h2, bindOk] at h
      cases h
      have hmem : e ∈ sim.entities.filter (fun e => !e.is_person) := by
        rw [List.mem_filter]
        exact ⟨he, by rw [hp]; rfl⟩
      obtain ⟨b, hb, hab⟩ := forall₂_mem_left (exceptMapM_ok_forall₂ h1) e hmem
      rw [hiv, getOr_some] at hab
      cases hab
      exact hb

theorem contains_of_mem_append_left {l₁ l₂ : List String} {n : String} (h : n ∈ l₁) :
    ((l₁ ++ l₂).contains n) = true := by
  have : n ∈ l₁ ++ l₂ := List.mem_append_left l₂ h
  exact List.elem_eq_true_of_mem this

theorem contains_of_mem_append_right {l₁ l₂ : List String} {n : String} (h : n ∈ l₂) :
    ((l₁ ++ l₂).contains n) = true := by
  have : n ∈ l₁ ++ l₂ := List.mem_append_right l₁ h
  exact List.elem_eq_true_of_mem this



theorem initColumns_error_mem {cbn : List (String × Column)} {ents : List Entity}
    {sts : List (String × EntityState)} {df : DataFrame} {err : InitError}
    (h : initColumns cbn ents sts df = Except.error err) :
    ∃ p ∈ df.cols, processColumn cbn ents sts df p.1 p.2 = Except.error err := by
  rw [initColumns] at h
  cases h1 : df.cols.mapM (fun p => processColumn cbn ents sts df p.1 p.2) with
  | error e1 => rw [h1, bindError] at h; cases h; exact exceptMapM_error_mem h1
  | ok arrays => rw [h1, bindOk] at h; cases h

/-- C2: for every non-person entity, if the number of distinct values in that
entity's identifier column differs from the number of role-0 rows, the
initialization from a data frame aborts (never returns ok); and if they are
equal for every non-person entity, the data-consistency check passes — the
initialization never fails with the `idsMismatch` data-consistency error. -/
theorem C2_unique_ids_consistency (tbs : TaxBenefitSystem) (sim : Simulation)
    (uaiv : List String) (df : DataFrame) :
    ((∃ e ∈ sim.entities, e.is_person = false ∧ ∃ roleVar idVar roleSerie idSerie,
        role_variable_by_entity_key e.key = some roleVar ∧
        id_variable_by_entity_key e.key = some idVar ∧
        df.get? roleVar = some roleSerie ∧ df.get? idVar = some idSerie ∧
        countRole0 roleSerie.values ≠ uniqueCount idSerie.values) →
      ∀ out, init_simulation_with_data_frame tbs sim uaiv df ≠ Except.ok out) ∧
    ((∀ e ∈ sim.entities, e.is_person = false → ∀ roleVar idVar roleSerie idSerie,
        role_variable_by_entity_key e.key = some roleVar →
        id_variable_by_entity_key e.key = some idVar →
        df.get? roleVar = some roleSerie → df.get? idVar = some idSerie →
        countRole0 roleSerie.values = uniqueCount idSerie.values) →
      ∀ k, init_simulation_with_data_frame tbs sim uaiv df ≠
        Except.error (InitError.idsMismatch k)) := by
  constructor
  · rintro ⟨e, he, hp, roleVar, idVar, roleSerie, idSerie, hrv, hiv, hrs, his, hne⟩ out hok
    obtain ⟨df', states, arrays, hdf', hst, _, _⟩ := init_ok_parts hok
    obtain ⟨idv, rolev, hirv, hfiv⟩ := filteredFrame_ok_parts hdf'
    have hrv_mem := idRoleVariables_ok_mem_role hirv he hp hrv
    have hiv_mem := idRoleVariables_ok_mem_id hirv he hp hiv
    have hrs' : df'.get? roleVar = some roleSerie := by
      rw [filter_input_variables_lookup hfiv (contains_of_mem_append_right hrv_mem)]
      exact hrs
    have his' : df'.get? idVar = some idSerie := by
      rw [filter_input_variables_lookup hfiv (contains_of_mem_append_left hiv_mem)]
      exact his
    obtain ⟨p, _, hpe⟩ := forall₂_mem_left (exceptMapM_ok_forall₂ hst) e he
    exact hne (processEntity_ok_counts hp hpe hrv hiv hrs' his')
  · intro hall k herr
    rcases init_error_parts herr with hferr | ⟨df', hdf', hrest⟩
    · rcases filteredFrame_error_shape hferr with ⟨x, hx⟩ | ⟨x, hx⟩ <;> cases hx
    · obtain ⟨idv, rolev, hirv, hfiv⟩ := filteredFrame_ok_parts hdf'
      rcases hrest with hent | ⟨states, hst, hcols⟩
      · obtain ⟨e, he, hpe⟩ := exceptMapM_error_mem hent
        obtain ⟨hp, hk, roleVar, idVar, roleSerie, idSerie, hrv, hiv, hrs', his', hne⟩ :=
          processEntity_error_idsMismatch hpe
        have hrv_mem := idRoleVariables_ok_mem_role hirv he hp hrv
        have hiv_mem := idRoleVariables_ok_mem_id hirv he hp hiv
        have hrs : df.get? roleVar = some roleSerie := by
          rw [← filter_input_variables_lookup hfiv (contains_of_mem_append_right hrv_mem)]
          exact hrs'
        have his : df.get? idVar = some idSerie := by
          rw [← filter_input_variables_lookup hfiv (contains_of_mem_append_left hiv_mem)]
          exact his'
        exact hne (hall e he hp roleVar idVar roleSerie idSerie hrv hiv hrs his)
      · obtain ⟨p, _, hpc⟩ := initColumns_error_mem hcols
        rcases processColumn_error_shape hpc with ⟨x, hx⟩ | ⟨x, hx⟩ | ⟨x, hx⟩ <;> cases hx

/-- Witness for C2: the mismatched frame (2 role-0 rows, 3 distinct household
ids) is rejected, while the consistent example frame never triggers the
data-consistency error. -/
theorem C2_unique_ids_consistency_witness :
    (∀ out, init_simulation_with_data_frame exTbs exSim [] exDfMismatch ≠ Except.ok out) ∧
    (∀ k, init_simulation_with_data_frame exTbs exSim [] exDf ≠
      Except.error (InitError.idsMismatch k)) := by
  constructor
  · refine (C2_unique_ids_consistency exTbs exSim [] exDfMismatch).1
      ⟨⟨"menage", false⟩, by decide, rfl, "quimen", "idmen",
        ⟨.int, [some 0, some 1, some 0, some 1]⟩,
        ⟨.int, [some 1, some 1, some 2, some 3]⟩,
        by decide, by decide, by decide, by decide, by decide⟩
  · refine (C2_unique_ids_consistency exTbs exSim [] exDf).2 ?_
    intro e he hp roleVar idVar roleSerie idSerie hrv hiv hrs his
    have he' : e = ⟨"individus", true⟩ ∨ e = ⟨"menage", false⟩ := by
      have hent : exSim.entities = [⟨"individus", true⟩, ⟨"menage", false⟩] := rfl
      rw [hent] at he
      simpa using he
    rcases he' with rfl | rfl
    · cases hp
    · have h1 : roleVar = "quimen" := by
        have : some "quimen" = some roleVar := hrv
        injection this with h
        exact h.symm
      have h2 : idVar = "idmen" := by
        have : some "idmen" = some idVar := hiv
        injection this with h
        exact h.symm
      subst h1
      subst h2
      have h3 : exDf.get? "quimen" = some (⟨.int, [some 0, some 1, some 0, some 1]⟩ : Series) := by
        decide
      have h4 : exDf.get? "idmen" = some (⟨.int, [some 1, some 1, some 2, some 2]⟩ : Series) := by
        decide
      rw [h3] at hrs
      rw [h4] at his
      injection hrs with hrs
      injection his with his
      subst hrs
      subst his
      decide



theorem forall₂_mem_right {α β : Type} {R : α → β → Prop} :
    ∀ {l : List α} {l' : List β}, List.Forall₂ R l l' → ∀ b ∈ l', ∃ a ∈ l, R a b := by
  intro l l' h
  induction h with
  | nil => intro b hb; cases hb
  | cons hr _ ih =>
    intro y hy
    rcases List.mem_cons.mp hy with rfl | hy'
    · exact ⟨_, List.mem_cons_self _ _, hr⟩
    · obtain ⟨a, ha, hRa⟩ := ih y hy'
      exact ⟨a, List.mem_cons_of_mem _ ha, hRa⟩

theorem initColumns_ok_mem {cbn : List (String × Column)} {ents : List Entity}
    {sts : List (String × EntityState)} {df : DataFrame}
    {arrays : List (String × List (Option Rat))}
    (h : initColumns cbn ents sts df = Except.ok arrays) :
    ∀ q ∈ arrays, ∃ p ∈ df.cols, processColumn cbn ents sts df p.1 p.2 = Except.ok (some q) := by
  rw [initColumns] at h
  cases h1 : df.cols.mapM (fun p => processColumn cbn ents sts df p.1 p.2) with
  | error e1 => rw [h1, bindError] at h; cases h
  | ok results =>
    rw [h1, bindOk] at h
    cases h
    intro q hq
    rw [List.mem_filterMap] at hq
    obtain ⟨o, ho, hoq⟩ := hq
    obtain ⟨p, hp, hpo⟩ := forall₂_mem_right (exceptMapM_ok_forall₂ h1) o ho
    cases o with
    | none => cases hoq
    | some q' =>
      cases hoq
      exact ⟨p, hp, hpo⟩

theorem processColumn_ok_parts {cbn : List (String × Column)} {ents : List Entity}
    {sts : List (String × EntityState)} {df : DataFrame} {name : String} {serie : Series}
    {q : String × List (Option Rat)}
    (h : processColumn cbn ents sts df name serie = Except.ok (some q)) :
    q.1 = name ∧ ∃ col entity st,
      lookup cbn name = some col ∧
      ents.find? (fun e => e.key == col.entity) = some entity ∧
      lookup sts col.entity = some st ∧
      q.2.length = st.count ∧
      (entity.is_person = true →
        (if serie.dtype == DType.float then filledValues col.default serie
         else serie.values).mapM (castCell col.dtype name) = Except.ok q.2) ∧
      (entity.is_person = false → ∃ roleVar roleSerie,
        role_variable_by_entity_key entity.key = some roleVar ∧
        df.get? roleVar = some roleSerie ∧
        (selectRole0 roleSerie.values
          (if serie.dtype == DType.float then filledValues col.default serie
           else serie.values)).mapM (castCell col.dtype name) = Except.ok q.2) := by
  rw [processColumn] at h
  cases hskip : ((role_variable_values ++ id_variable_values).contains name) with
  | true => rw [hskip] at h; simp only [if_pos] at h; cases h
  | false =>
    rw [hskip] at h
    simp only [Bool.false_eq_true, if_false] at h
    cases hcol : lookup cbn name with
    | none => rw [hcol, getOr_none, bindError] at h; cases h
    | some col =>
      rw [hcol, getOr_some, bindOk] at h
      cases hent : ents.find? (fun e => e.key == col.entity) with
      | none => rw [hent, getOr_none, bindError] at h; cases h
      | some entity =>
        rw [hent, getOr_some, bindOk] at h
        cases hst : lookup sts col.entity with
        | none => rw [hst, getOr_none, bindError] at h; cases h
        | some st =>
          rw [hst, getOr_some, bindOk] at h
          have tail :
              ∀ (filled : List (Option Rat)),
                ((if entity.is_person = true then do
                    let y ← filled.mapM (castCell col.dtype name)
                    if y.length = st.count then Except.ok (some (name, y))
                    else Except.error (InitError.badSize name)
                  else do
                    let roleVar ← getOr (role_variable_by_entity_key entity.key)
                      (InitError.keyError entity.key)
                    let roleSerie ← getOr (df.get? roleVar) (InitError.keyError roleVar)
                    let y ← (selectRole0 roleSerie.values filled).mapM (castCell col.dtype name)
                    if y.length = st.count then Except.ok (some (name, y))
                    else Except.error (InitError.badSize name)) :
                  Except InitError (Option (String × List (Option Rat)))) = Except.ok (some q) →
                q.1 = name ∧ q.2.length = st.count ∧
                (entity.is_person = true →
                  filled.mapM (castCell col.dtype name) = Except.ok q.2) ∧
                (entity.is_person = false → ∃ roleVar roleSerie,
                  role_variable_by_entity_key entity.key = some roleVar ∧
                  df.get? roleVar = some roleSerie ∧
                  (selectRole0 roleSerie.values filled).mapM (castCell col.dtype name) =
                    Except.ok q.2) := by
            intro filled htail
            cases hip : entity.is_person with
            | true =>
              rw [hip] at htail
              simp only [if_pos] at htail
              cases hmc : filled.mapM (castCell col.dtype name) with
              | error e1 => rw [hmc, bindError] at htail; cases htail
              | ok arr =>
                rw [hmc, bindOk] at htail
                by_cases hlen : arr.length = st.count
                · rw [if_pos hlen] at htail
                  cases htail
                  exact ⟨rfl, hlen, fun _ => rfl, fun hfalse => by cases hfalse⟩
                · rw [if_neg hlen] at htail
                  cases htail
            | false =>
              rw [hip] at htail
              simp only [Bool.false_eq_true, if_false] at htail
              cases hrv : role_variable_by_entity_key entity.key with
              | none => rw [hrv, getOr_none, bindError] at htail; cases htail
              | some roleVar =>
                rw [hrv, getOr_some, bindOk] at htail
                cases hrs : df.get? roleVar with
                | none => rw [hrs, getOr_none, bindError] at htail; cases htail
                | some roleSerie =>
                  rw [hrs, getOr_some, bindOk] at htail
                  cases hmc : (selectRole0 roleSerie.values filled).mapM
                      (castCell col.dtype name) with
                  | error e1 => rw [hmc, bindError] at htail; cases htail
                  | ok arr =>
                    rw [hmc, bindOk] at htail
                    by_cases hlen : arr.length = st.count
                    · rw [if_pos hlen] at htail
                      cases htail
                      refine ⟨rfl, hlen, ?_, ?_⟩
                      · intro htrue; cases htrue
                      · intro _
                        exact ⟨roleVar, roleSerie, rfl, hrs, hmc⟩
                    · rw [if_neg hlen] at htail
                      cases htail
          cases hdt : (serie.dtype == DType.float) with
          | true =>
            rw [hdt] at h
            simp only [if_pos] at h
            rw [filledValues_all_isSome col.default serie (by simpa using hdt)] at h
            simp only [if_pos, pureOk, bindOk] at h
            obtain ⟨hq1, hlen, hp, hnp⟩ := tail _ h
            exact ⟨hq1, col, entity, st, rfl, hent, hst, hlen,
              by simp only [if_pos]; exact hp, by simp only [if_pos]; exact hnp⟩
          | false =>
            rw [hdt] at h
            simp only [Bool.false_eq_true, if_false, pureOk, bindOk] at h
            obtain ⟨hq1, hlen, hp, hnp⟩ := tail _ h
            refine ⟨hq1, col, entity, st, rfl, hent, hst, hlen, ?_, ?_⟩
            · simp only [Bool.false_eq_true, if_false]; exact hp
            · simp only [Bool.false_eq_true, if_false]; exact hnp



def exArrays : List (String × List (Option Rat)) :=
  [("salaire", [some 10, some 0, some 30, some 40]), ("loyer", [some 100, some 300])]

/-- C3: on a successful initialization, every stored array's length equals its
entity's computed row count, and the array stored for a column of a non-person
entity consists exactly of that column's filled values at the rows whose role
equals 0, in row order, cast to the schema's element type. -/
theorem C3_entity_arrays (tbs : TaxBenefitSystem) (sim : Simulation) (uaiv : List String)
    (df df' : DataFrame) (states : List (String × EntityState))
    (arrays : List (String × List (Option Rat)))
    (hdf' : filteredFrame tbs sim uaiv df = Except.ok df')
    (hok : init_simulation_with_data_frame tbs sim uaiv df = Except.ok (states, arrays)) :
    ∀ q ∈ arrays, ∃ col st serie,
      lookup tbs.column_by_name q.1 = some col ∧
      lookup states col.entity = some st ∧
      (q.1, serie) ∈ df'.cols ∧
      q.2.length = st.count ∧
      (∀ e, sim.entities.find? (fun x => x.key == col.entity) = some e →
        e.is_person = false → ∃ roleVar roleSerie,
          role_variable_by_entity_key e.key = some roleVar ∧
          df'.get? roleVar = some roleSerie ∧
          (selectRole0 roleSerie.values
            (if serie.dtype == DType.float then filledValues col.default serie
             else serie.values)).mapM (castCell col.dtype q.1) = Except.ok q.2) := by
  intro q hq
  obtain ⟨df'', states'', arrays'', hdf'', hst, hcols, hout⟩ := init_ok_parts hok
  rw [hdf'] at hdf''
  injection hdf'' with hdf''
  subst hdf''
  injection hout with hout1 hout2
  subst hout1
  subst hout2
  obtain ⟨p, hp, hpq⟩ := initColumns_ok_mem hcols q hq
  obtain ⟨hq1, col, entity, st, hcol, hent, hstl, hlen, _, hgroup⟩ := processColumn_ok_parts hpq
  refine ⟨col, st, p.2, ?_, hstl, ?_, hlen, ?_⟩
  · rw [hq1]; exact hcol
  · rw [hq1]
    have : (p.1, p.2) = p := rfl
    rw [this]
    exact hp
  · intro e hfind hpf
    rw [hent] at hfind
    injection hfind with hfind
    subst hfind
    obtain ⟨roleVar, roleSerie, h1, h2, h3⟩ := hgroup hpf
    refine ⟨roleVar, roleSerie, h1, h2, ?_⟩
    rw [hq1]
    exact h3

/-- Witness for C3: concrete run on the spec's example — the household-level
column `loyer` is stored as its role-0 cells [100, 300], of length 2 = household
count; the person-level `salaire` array has length 4. -/
theorem C3_entity_arrays_witness :
    (filteredFrame exTbs exSim [] exDf = Except.ok exDf ∧
      init_simulation_with_data_frame exTbs exSim [] exDf = Except.ok (exStates, exArrays)) ∧
    (∀ q ∈ exArrays, ∃ col st serie,
      lookup exTbs.column_by_name q.1 = some col ∧
      lookup exStates col.entity = some st ∧
      (q.1, serie) ∈ exDf.cols ∧
      q.2.length = st.count ∧
      (∀ e, exSim.entities.find? (fun x => x.key == col.entity) = some e →
        e.is_person = false → ∃ roleVar roleSerie,
          role_variable_by_entity_key e.key = some roleVar ∧
          exDf.get? roleVar = some roleSerie ∧
          (selectRole0 roleSerie.values
            (if serie.dtype == DType.float then filledValues col.default serie
             else serie.values)).mapM (castCell col.dtype q.1) = Except.ok q.2)) :=
  ⟨⟨by with_unfolding_all rfl, by with_unfolding_all rfl⟩,
    C3_entity_arrays exTbs exSim [] exDf exDf exStates exArrays
      (by with_unfolding_all rfl) (by with_unfolding_all rfl)⟩



/-- C4: after the fill-default step every missing entry holds the schema's
declared default, every non-missing entry is unchanged, the filled column has no
missing values left, and the subsequent not-null assertion never fails — the
initialization can never return the `nanRemaining` error. -/
theorem C4_fill_missing_defaults (d : Rat) (vals : List (Option Rat))
    (tbs : TaxBenefitSystem) (sim : Simulation) (uaiv : List String) (df : DataFrame)
    (c : String) :
    (∀ (i : Nat), vals[i]? = some none → (fillMissing d vals)[i]? = some (some d)) ∧
    (∀ (i : Nat) (x : Rat), vals[i]? = some (some x) → (fillMissing d vals)[i]? = some (some x)) ∧
    ((fillMissing d vals).all (fun v => v.isSome) = true) ∧
    init_simulation_with_data_frame tbs sim uaiv df ≠
      Except.error (InitError.nanRemaining c) := by
  refine ⟨?_, ?_, ?_, ?_⟩
  · intro i hi
    rw [fillMissing, List.getElem?_map, hi]
    rfl
  · intro i x hi
    rw [fillMissing, List.getElem?_map, hi]
    rfl
  · rw [fillMissing, List.all_eq_true]
    intro v hv
    rw [List.mem_map] at hv
    obtain ⟨a, _, ha⟩ := hv
    rw [← ha]
    rfl
  · intro herr
    rcases init_error_parts herr with hferr | ⟨df', hdf', hrest⟩
    · rcases filteredFrame_error_shape hferr with ⟨x, hx⟩ | ⟨x, hx⟩ <;> cases hx
    · rcases hrest with hent | ⟨states, hst, hcols⟩
      · obtain ⟨e, _, hpe⟩ := exceptMapM_error_mem hent
        rcases processEntity_error_shape hpe with ⟨x, hx⟩ | hx | hx | ⟨x, hx⟩ <;> cases hx
      · obtain ⟨p, _, hpc⟩ := initColumns_error_mem hcols
        rcases processColumn_error_shape hpc with ⟨x, hx⟩ | ⟨x, hx⟩ | ⟨x, hx⟩ <;> cases hx

/-- Witness for C4: filling [NaN, 1] with default 5 gives [5, 1]; the example
pipeline never raises the remaining-NaN assertion. -/
theorem C4_fill_missing_defaults_witness :
    ([none, some (1 : Rat)][0]? = some none) ∧
    ((fillMissing 5 [none, some 1])[0]? = some (some 5)) ∧
    ((fillMissing 5 [none, some 1]).all (fun v => v.isSome) = true) ∧
    init_simulation_with_data_frame exTbs exSim [] exDf ≠
      Except.error (InitError.nanRemaining "salaire") :=
  ⟨rfl,
   (C4_fill_missing_defaults 5 [none, some 1] exTbs exSim [] exDf "salaire").1 0 rfl,
   (C4_fill_missing_defaults 5 [none, some 1] exTbs exSim [] exDf "salaire").2.2.1,
   (C4_fill_missing_defaults 5 [none, some 1] exTbs exSim [] exDf "salaire").2.2.2⟩

theorem filterPass2Cols_congr {cbn : List (String × Column)} {idv rolev uaiv uaiv' : List String} :
    ∀ {cols : List (String × Series)},
      (∀ p ∈ cols, uaiv.contains p.1 = uaiv'.contains p.1) →
      filterPass2Cols cbn idv rolev uaiv cols = filterPass2Cols cbn idv rolev uaiv' cols := by
  intro cols
  induction cols with
  | nil => intro _; rfl
  | cons a t ih =>
    intro hagree
    rw [filterPass2Cols, filterPass2Cols]
    have ht := ih (fun p hp => hagree p (List.mem_cons_of_mem a hp))
    rw [ht]
    cases hc : ((idv ++ rolev).contains a.1) with
    | true => rfl
    | false =>
      cases hcol : lookup cbn a.1 with
      | none => rfl
      | some col =>
        rw [hagree a (List.mem_cons_self a t)]

theorem mem_columnNames_of_mem_pass1 {cbn : List (String × Column)} {idv rolev : List String}
    {df : DataFrame} {p : String × Series} (hp : p ∈ (filterPass1 cbn idv rolev df).cols) :
    p.1 ∈ df.columnNames := by
  rw [filterPass1] at hp
  have := List.mem_of_mem_filter hp
  exact List.mem_map_of_mem Prod.fst this

/-- C9: a variable declared as used-as-input but absent from the table's columns
never changes the outcome of the initialization — the run is identical to the one
using only the declared variables actually present (the intersection with the
table's columns); in particular the mismatch never causes a failure. -/
theorem C9_absent_input_variables_harmless (tbs : TaxBenefitSystem) (sim : Simulation)
    (uaiv : List String) (df : DataFrame) :
    init_simulation_with_data_frame tbs sim uaiv df =
    init_simulation_with_data_frame tbs sim
      (uaiv.filter (fun v => df.columnNames.contains v)) df := by
  have hff : filteredFrame tbs sim uaiv df =
      filteredFrame tbs sim (uaiv.filter (fun v => df.columnNames.contains v)) df := by
    rw [filteredFrame, filteredFrame]
    cases h1 : idRoleVariables sim with
    | error e1 => rw [bindError, bindError]
    | ok pr =>
      rw [bindOk, bindOk]
      obtain ⟨idv, rolev⟩ := pr
      dsimp only
      cases h2 : checkIdRolePresence df idv rolev with
      | error e2 => rw [bindError, bindError]
      | ok u =>
        rw [bindOk, bindOk]
        rw [filter_input_variables, filter_input_variables]
        have : filterPass2Cols tbs.column_by_name idv rolev uaiv
            (filterPass1 tbs.column_by_name idv rolev df).cols =
            filterPass2Cols tbs.column_by_name idv rolev
              (uaiv.filter (fun v => df.columnNames.contains v))
              (filterPass1 tbs.column_by_name idv rolev df).cols := by
          apply filterPass2Cols_congr
          intro p hp
          have hmem := mem_columnNames_of_mem_pass1 hp
          have hcontains : (df.columnNames.contains p.1) = true :=
            List.elem_eq_true_of_mem hmem
          cases hu : uaiv.contains p.1 with
          | true =>
            have : p.1 ∈ uaiv := List.mem_of_elem_eq_true hu
            have : p.1 ∈ uaiv.filter (fun v => df.columnNames.contains v) := by
              rw [List.mem_filter]
              exact ⟨this, hcontains⟩
            exact (List.elem_eq_true_of_mem this).symm
          | false =>
            cases hu' : ((uaiv.filter (fun v => df.columnNames.contains v)).contains p.1) with
            | false => rfl
            | true =>
              have hmem' := List.mem_of_elem_eq_true hu'
              rw [List.mem_filter] at hmem'
              have hcon : uaiv.contains p.1 = true := List.elem_eq_true_of_mem hmem'.1
              rw [hu] at hcon
              exact hcon
        rw [this]
  rw [init_simulation_with_data_frame, init_simulation_with_data_frame, hff]



theorem resolved_mean_eq_sum_div_count (sc : Scenario) (varname : String)
    (fbv : Option String) (r : Bool) (m s c : Rat)
    (hm : compute_aggregate_resolved sc varname "mean" fbv r = Except.ok (some m))
    (hs : compute_aggregate_resolved sc varname "sum" fbv r = Except.ok (some s))
    (hc : compute_aggregate_resolved sc varname "count" fbv r = Except.ok (some c)) :
    m = s / c := by
  rw [compute_aggregate_resolved] at hm hs hc
  cases htr : truthy fbv with
  | some f =>
    rw [htr] at hm hs hc
    simp only [pureOk, bindOk] at hm hs hc
    cases hfs : (lookup sc.tax_benefit_system.column_by_name f).isSome with
    | false =>
      rw [hfs] at hm
      simp only [Bool.false_eq_true, if_false] at hm
      cases hm
    | true =>
      rw [hfs] at hm hs hc
      simp only [if_pos, pureOk, bindOk] at hm hs hc
      cases hw : sc.weight_column_name_by_entity.isEmpty with
      | true => rw [hw] at hm; simp only [if_pos] at hm; cases hm
      | false =>
        rw [hw] at hm hs hc
        simp only [Bool.false_eq_true, if_false] at hm hs hc
        cases hcol : lookup sc.tax_benefit_system.column_by_name varname with
        | none => rw [hcol, getOr_none, bindError] at hm; cases hm
        | some col =>
          rw [hcol, getOr_some, bindOk] at hm hs hc
          cases hwe : lookup sc.weight_column_name_by_entity col.entity with
          | none => rw [hwe, getOr_none, bindError] at hm; cases hm
          | some ew =>
            rw [hwe, getOr_some, bindOk] at hm hs hc
            cases hv : (lookup (if r = true then sc.reference_simulation
                else sc.simulation).column_by_name varname).isSome with
            | false =>
              rw [hv] at hm
              simp only [Bool.false_eq_true, if_false,
                show (("mean" == "sum") = true) = False by simp, if_true,
                show (("mean" == "mean") = true) = True by simp] at hm
              cases hm
            | true =>
              rw [hv] at hm hs hc
              simp only [if_pos,
                show (("mean" == "sum") = true) = False by simp,
                show (("sum" == "sum") = true) = True by simp,
                show (("count" == "sum") = true) = False by simp,
                show (("mean" == "mean") = true) = True by simp,
                show (("count" == "mean") = true) = False by simp,
                if_true, if_false] at hm hs hc
              rw [ratDiv] at hm
              cases hz : ((weightedMass ((if r = true then sc.reference_simulation
                  else sc.simulation).calculate ew)
                  (Option.map (if r = true then sc.reference_simulation
                    else sc.simulation).calculate (some f))) == 0) with
              | true =>
                rw [hz] at hm
                simp only [if_pos] at hm
                cases hm
              | false =>
                rw [hz] at hm
                simp only [Bool.false_eq_true, if_false, Except.ok.injEq,
                  Option.some.injEq] at hm
                simp only [Option.map_some', Option.map_none', Except.ok.injEq, Option.some.injEq] at hs hc
                rw [← hm, ← hs, ← hc]
                simp only [Option.map_some', Option.map_none']
  | none =>
    rw [htr] at hm hs hc
    simp only [pureOk, bindOk] at hm hs hc
    cases hw : sc.weight_column_name_by_entity.isEmpty with
    | true => rw [hw] at hm; simp only [if_pos] at hm; cases hm
    | false =>
      rw [hw] at hm hs hc
      simp only [Bool.false_eq_true, if_false] at hm hs hc
      cases hcol : lookup sc.tax_benefit_system.column_by_name varname with
      | none => rw [hcol, getOr_none, bindError] at hm; cases hm
      | some col =>
        rw [hcol, getOr_some, bindOk] at hm hs hc
        cases hwe : lookup sc.weight_column_name_by_entity col.entity with
        | none => rw [hwe, getOr_none, bindError] at hm; cases hm
        | some ew =>
          rw [hwe, getOr_some, bindOk] at hm hs hc
          cases hv : (lookup (if r = true then sc.reference_simulation
              else sc.simulation).column_by_name varname).isSome with
          | false =>
            rw [hv] at hm
            simp only [Bool.false_eq_true, if_false,
              show (("mean" == "sum") = true) = False by simp, if_true,
              show (("mean" == "mean") = true) = True by simp] at hm
            cases hm
          | true =>
            rw [hv] at hm hs hc
            simp only [if_pos,
              show (("mean" == "sum") = true) = False by simp,
              show (("sum" == "sum") = true) = True by simp,
              show (("count" == "sum") = true) = False by simp,
              show (("mean" == "mean") = true) = True by simp,
              show (("count" == "mean") = true) = False by simp,
              if_true, if_false] at hm hs hc
            rw [ratDiv] at hm
            cases hz : ((weightedMass ((if r = true then sc.reference_simulation
                else sc.simulation).calculate ew)
                (Option.map (if r = true then sc.reference_simulation
                  else sc.simulation).calculate (none : Option String))) == 0) with
            | true =>
              rw [hz] at hm
              simp only [if_pos] at hm
              cases hm
            | false =>
              rw [hz] at hm
              simp only [Bool.false_eq_true, if_false, Except.ok.injEq,
                Option.some.injEq] at hm
              simp only [Option.map_some', Option.map_none', Except.ok.injEq, Option.some.injEq] at hs hc
              rw [← hm, ← hs, ← hc]
              simp only [Option.map_some', Option.map_none']



/-- C5: whenever the mean, sum and count aggregates of a variable (same filter,
weight configuration and scenario side) are all defined, the mean equals the sum
divided by the count. -/
theorem C5_mean_eq_sum_div_count (sc : Scenario) (varname : String) (fb : Option String)
    (r : Bool) (m s c : Rat)
    (hm : compute_aggregate sc varname "mean" fb r = Except.ok (some m))
    (hs : compute_aggregate sc varname "sum" fb r = Except.ok (some s))
    (hc : compute_aggregate sc varname "count" fb r = Except.ok (some c)) :
    m = s / c := by
  rw [compute_aggregate] at hm hs hc
  rw [show (!(["count", "mean", "sum"].contains "mean")) = false from rfl] at hm
  rw [show (!(["count", "mean", "sum"].contains "sum")) = false from rfl] at hs
  rw [show (!(["count", "mean", "sum"].contains "count")) = false from rfl] at hc
  simp only [Bool.false_eq_true, if_false] at hm hs hc
  cases fb with
  | some f0 =>
    simp only [pureOk, bindOk] at hm hs hc
    exact resolved_mean_eq_sum_div_count sc varname (some f0) r m s c hm hs hc
  | none =>
    cases hcol : lookup sc.tax_benefit_system.column_by_name varname with
    | none =>
      rw [hcol] at hm
      simp only [getOr_none, bindError] at hm
      cases hm
    | some col =>
      rw [hcol] at hm hs hc
      simp only [getOr_some, bindOk, pureOk] at hm hs hc
      exact resolved_mean_eq_sum_div_count sc varname
        (lookup sc.filtering_variable_by_entity col.entity) r m s c hm hs hc

/-- Witness for C5: on the example scenario, mean = 35/2, sum = 70, count = 4,
and 35/2 = 70/4. -/
theorem C5_mean_eq_sum_div_count_witness :
    compute_aggregate exScenario "sal" "mean" none false = Except.ok (some (35 / 2)) ∧
    compute_aggregate exScenario "sal" "sum" none false = Except.ok (some 70) ∧
    compute_aggregate exScenario "sal" "count" none false = Except.ok (some 4) ∧
    (35 / 2 : Rat) = 70 / 4 :=
  ⟨by with_unfolding_all rfl, by with_unfolding_all rfl, by with_unfolding_all rfl,
    C5_mean_eq_sum_div_count exScenario "sal" none false (35 / 2) 70 4
      (by with_unfolding_all rfl) (by with_unfolding_all rfl) (by with_unfolding_all rfl)⟩

theorem resolved_count_entity_only (sc : Scenario) (v1 v2 : String) (fbv : Option String)
    (r : Bool) (c1 c2 : Column)
    (h1 : lookup sc.tax_benefit_system.column_by_name v1 = some c1)
    (h2 : lookup sc.tax_benefit_system.column_by_name v2 = some c2)
    (hent : c1.entity = c2.entity) :
    compute_aggregate_resolved sc v1 "count" fbv r =
    compute_aggregate_resolved sc v2 "count" fbv r := by
  rw [compute_aggregate_resolved, compute_aggregate_resolved]
  simp only [show (("count" == "sum") = true) = False from by simp,
    show (("count" == "mean") = true) = False from by simp,
    if_false, h1, h2, getOr_some, bindOk, hent]

/-- C10: the count aggregate does not depend on the aggregated variable's values:
two schema variables of the same entity give the same count for the same filter
argument, scenario side and weights. -/
theorem C10_count_independent_of_values (sc : Scenario) (v1 v2 : String)
    (fb : Option String) (r : Bool) (c1 c2 : Column)
    (h1 : lookup sc.tax_benefit_system.column_by_name v1 = some c1)
    (h2 : lookup sc.tax_benefit_system.column_by_name v2 = some c2)
    (hent : c1.entity = c2.entity) :
    compute_aggregate sc v1 "count" fb r = compute_aggregate sc v2 "count" fb r := by
  rw [compute_aggregate, compute_aggregate]
  rw [show (!(["count", "mean", "sum"].contains "count")) = false from rfl]
  simp only [Bool.false_eq_true, if_false]
  cases fb with
  | some f0 =>
    simp only [pureOk, bindOk]
    exact resolved_count_entity_only sc v1 v2 (some f0) r c1 c2 h1 h2 hent
  | none =>
    simp only [h1, h2, getOr_some, bindOk, pureOk, hent]
    exact resolved_count_entity_only sc v1 v2
      (lookup sc.filtering_variable_by_entity c2.entity) r c1 c2 h1 h2 hent

/-- Witness for C10: `sal` (values [10, 20]) and `taille` (values [3, 5]) belong
to the same entity and give identical counts. -/
theorem C10_count_independent_of_values_witness :
    lookup exScenario.tax_benefit_system.column_by_name "sal" =
      some ⟨"menage", DType.float, 0, false⟩ ∧
    lookup exScenario.tax_benefit_system.column_by_name "taille" =
      some ⟨"menage", DType.int, 0, false⟩ ∧
    compute_aggregate exScenario "sal" "count" none false =
      compute_aggregate exScenario "taille" "count" none false :=
  ⟨by with_unfolding_all rfl, by with_unfolding_all rfl,
    C10_count_independent_of_values exScenario "sal" "taille" none false
      ⟨"menage", DType.float, 0, false⟩ ⟨"menage", DType.int, 0, false⟩
      (by with_unfolding_all rfl) (by with_unfolding_all rfl) rfl⟩

/-- Counterexample to C7 as stated: for a variable that is not in the scenario's
schema, `compute_aggregate` FAILS with a KeyError (raised by the schema access of
scenarios.py line 101, or line 84 when the filter is derived) instead of
degrading to NaN. -/
theorem C7_unknown_variable_raises :
    lookup exScenario.tax_benefit_system.column_by_name "unknown_variable" = none ∧
    compute_aggregate exScenario "unknown_variable" "sum" none false =
      Except.error (AggError.keyError "unknown_variable") :=
  ⟨by with_unfolding_all rfl, by with_unfolding_all rfl⟩

theorem resolved_missing_sim_gives_nan (sc : Scenario) (v : String) (fbv : Option String)
    (r : Bool) (col : Column) (ew : String)
    (hcol : lookup sc.tax_benefit_system.column_by_name v = some col)
    (hsim : (lookup (if r = true then sc.reference_simulation
      else sc.simulation).column_by_name v).isSome = false)
    (hw : sc.weight_column_name_by_entity.isEmpty = false)
    (hwe : lookup sc.weight_column_name_by_entity col.entity = some ew)
    (hfil : ∀ f, truthy fbv = some f →
      (lookup sc.tax_benefit_system.column_by_name f).isSome = true) :
    compute_aggregate_resolved sc v "sum" fbv r = Except.ok none := by
  rw [compute_aggregate_resolved]
  cases htr : truthy fbv with
  | some f =>
    dsimp only
    rw [hfil f htr]
    simp only [if_pos, pureOk, bindOk, hw, Bool.false_eq_true, if_false, hcol,
      getOr_some, hwe]
    rw [hsim]
    simp only [Bool.false_eq_true, if_false,
      show (("sum" == "sum") = true) = True from by simp, if_true, Option.map_none']
  | none =>
    dsimp only
    simp only [pureOk, bindOk, hw, Bool.false_eq_true, if_false, hcol, getOr_some, hwe]
    rw [hsim]
    simp only [Bool.false_eq_true, if_false,
      show (("sum" == "sum") = true) = True from by simp, if_true, Option.map_none']

/-- C7 amended: the NaN fallback only covers variables that are in the scenario's
schema but missing from the *simulation's* schema; for those, the sum aggregate
does not fail and yields the not-a-number result. -/
theorem C7_amended_unknown_to_simulation (sc : Scenario) (v : String) (r : Bool)
    (col : Column) (ew : String)
    (hcol : lookup sc.tax_benefit_system.column_by_name v = some col)
    (hsim : (lookup (if r = true then sc.reference_simulation
      else sc.simulation).column_by_name v).isSome = false)
    (hw : sc.weight_column_name_by_entity.isEmpty = false)
    (hwe : lookup sc.weight_column_name_by_entity col.entity = some ew)
    (hfil : ∀ f, truthy (lookup sc.filtering_variable_by_entity col.entity) = some f →
      (lookup sc.tax_benefit_system.column_by_name f).isSome = true) :
    compute_aggregate sc v "sum" none r = Except.ok none := by
  rw [compute_aggregate]
  rw [show (!(["count", "mean", "sum"].contains "sum")) = false from rfl]
  simp only [Bool.false_eq_true, if_false, hcol, getOr_some, bindOk, pureOk]
  exact resolved_missing_sim_gives_nan sc v
    (lookup sc.filtering_variable_by_entity col.entity) r col ew hcol hsim hw hwe hfil

/-- Witness for the amended C7: `notinsim` is declared by the scenario's schema
but not computed by the simulation; its sum aggregate is NaN, not an error. -/
theorem C7_amended_unknown_to_simulation_witness :
    lookup exScenarioFiltered.tax_benefit_system.column_by_name "notinsim" =
      some ⟨"menage", DType.float, 0, false⟩ ∧
    (lookup exScenarioFiltered.simulation.column_by_name "notinsim").isSome = false ∧
    compute_aggregate exScenarioFiltered "notinsim" "sum" none false = Except.ok none :=
  ⟨by with_unfolding_all rfl, by with_unfolding_all rfl,
    C7_amended_unknown_to_simulation exScenarioFiltered "notinsim" false
      ⟨"menage", DType.float, 0, false⟩ "wprm"
      (by with_unfolding_all rfl) (by with_unfolding_all rfl)
      (by with_unfolding_all rfl) (by with_unfolding_all rfl)
      (by
        intro f hf
        have : f = "filt" := by
          have h1 : truthy (lookup exScenarioFiltered.filtering_variable_by_entity
              ("menage" : String)) = some "filt" := by with_unfolding_all rfl
          rw [h1] at hf
          injection hf with hf
          exact hf.symm
        rw [this]
        with_unfolding_all rfl)⟩



/-- Counterexample to C8 as stated: the renaming loop `break`s after the first
match, so in a table whose columns are ["ident08", "ident09"] the second matching
column is left unrenamed — the result is ["ident", "ident09"], not
["ident", "ident"]. -/
theorem C8_second_match_not_renamed :
    identMatch "ident08" = true ∧ identMatch "ident09" = true ∧
    rename_ident_columns ["ident08", "ident09"] = ["ident", "ident09"] ∧
    rename_ident_columns ["ident08", "ident09"] ≠ ["ident", "ident"] := by
  refine ⟨?_, ?_, ?_, ?_⟩ <;> decide

/-- C8 amended: only the FIRST column (in column order) whose name matches the
identifier-with-2-to-4-digit-year-suffix pattern is renamed to "ident"; columns
before it do not match and every column after it — matching or not — is
unchanged; when no column matches, all names are unchanged. -/
theorem C8_first_match_renamed (pre post : List String) (c : String) :
    ((∀ x ∈ pre, identMatch x = false) → identMatch c = true →
      rename_ident_columns (pre ++ c :: post) = pre ++ "ident" :: post) ∧
    (∀ cols : List String, (∀ x ∈ cols, identMatch x = false) →
      rename_ident_columns cols = cols) := by
  constructor
  · induction pre with
    | nil =>
      intro _ hc
      simp [rename_ident_columns, hc]
    | cons a t ih =>
      intro hpre hc
      have ha : identMatch a = false := hpre a (List.mem_cons_self a t)
      simp only [List.cons_append, rename_ident_columns, ha, Bool.false_eq_true, if_false,
        List.append_eq]
      rw [ih (fun x hx => hpre x (List.mem_cons_of_mem a hx)) hc]
  · intro cols hall
    induction cols with
    | nil => rfl
    | cons a t ih =>
      have ha : identMatch a = false := hall a (List.mem_cons_self a t)
      simp only [rename_ident_columns, ha, Bool.false_eq_true, if_false]
      rw [ih (fun x hx => hall x (List.mem_cons_of_mem a hx))]

/-- Witness for the amended C8: in ["age", "ident08", "ident09"] only "ident08"
is renamed. -/
theorem C8_first_match_renamed_witness :
    (∀ x ∈ ["age"], identMatch x = false) ∧ identMatch "ident08" = true ∧
    rename_ident_columns ["age", "ident08", "ident09"] = ["age", "ident", "ident09"] :=
  ⟨by decide, by decide,
    (C8_first_match_renamed ["age"] ["ident09"] "ident08").1 (by decide) (by decide)⟩

/-- C6 (code-bug evaluation): on a scenario whose entity has a configured
filtering variable, difference mode fails with the UnboundLocalError of
scenarios.py line 126 — the difference branch passes the derived non-None filter
to its recursive calls, whose preamble only assigns `tax_benefit_system` under
`if filter_by is None:` — even though both underlying pivots are computable
directly; on a scenario without a filtering variable, difference mode does return
the elementwise subtraction of the current and reference pivots. -/
theorem C6_difference_mode_unbound_local :
    compute_pivot_table exScenarioFiltered "sum" [] true none ["idx"] false ["sal"] =
      Except.error PivotError.unboundLocalTaxBenefitSystem ∧
    compute_pivot_table exScenarioFiltered "sum" [] false none ["idx"] false ["sal"] =
      Except.ok ⟨[(([some 1], []), some 10), (([some 2], []), some 0)]⟩ ∧
    compute_pivot_table exScenarioFiltered "sum" [] false none ["idx"] true ["sal"] =
      Except.ok ⟨[(([some 1], []), some 5), (([some 2], []), some 0)]⟩ ∧
    compute_pivot_table exScenario "sum" [] true none ["idx"] false ["sal"] =
      Except.ok (pivotSub ⟨[(([some 1], []), some 10), (([some 2], []), some 60)]⟩
        ⟨[(([some 1], []), some 5), (([some 2], []), some 30)]⟩) ∧
    compute_pivot_table exScenario "sum" [] false none ["idx"] false ["sal"] =
      Except.ok ⟨[(([some 1], []), some 10), (([some 2], []), some 60)]⟩ ∧
    compute_pivot_table exScenario "sum" [] false none ["idx"] true ["sal"] =
      Except.ok ⟨[(([some 1], []), some 5), (([some 2], []), some 30)]⟩ := by
  refine ⟨?_, ?_, ?_, ?_, ?_, ?_⟩ <;> with_unfolding_all rfl

end OpenFiscaSM
